import Mathlib

/-!
Shallow embedding of the report-pipeline orchestration engine of the
ai-marketing-reports repository.

Source files embedded here:
  backend/config/reports/tasks.py   (generate_marketing_report, retry logic,
                                     monitor_report_processing)
  backend/config/reports/models.py  (Report.save, Report.progress_percentage)

Modelling conventions:
  - JSON-ish Python values are modelled by the inductive type `Val`;
    Python dicts by insertion-ordered association lists (`Ctx`), which
    matches CPython dict semantics (insertion order preserved, assignment
    to an existing key overwrites in place).
  - Timestamps are natural numbers (seconds); `timezone.now()` becomes an
    explicit `now : Nat` argument.  A single run uses one `now` value; the
    claims under study never depend on clock advance within a run.
  - Django ORM `report.save()` calls are modelled by applying the pure
    function `Report.save` (which reproduces the overridden save method of
    models.py) to the in-memory record; the store is a partial map that
    receives the final record value.
  - WebSocket sends (`send_progress`, `send_status_update`, channel layer
    group sends) are fire-and-forget telemetry with no effect on the
    record or the collected data; they are not modelled.
  - Each pipeline stage collaborator (WebsiteAnalyzer, SEODataCollector,
    SocialDataCollector, ReputationCollector, CompetitorCollector, the
    trust/growth AI pair, SummaryGenerator) is a black box per the spec;
    its outcome for the run is an input of type `Except String Val`
    (exception message or returned payload).
-/

/-- Python/JSON value: strings, numbers (modelled as rationals, covering
ints and floats), booleans, lists and dicts. -/
inductive Val : Type where
  | vstr : String → Val
  | vnum : ℚ → Val
  | vbool : Bool → Val
  | vlist : List Val → Val
  | vobj : List (String × Val) → Val
  deriving Repr

/-- Lookup of a key in a dict payload (Python `d.get(k)` / `k in d`). -/
def objGet (fields : List (String × Val)) (k : String) : Option Val :=
  match fields with
  | [] => none
  | (k0, v) :: rest => if k0 = k then some v else objGet rest k

/-- Python truthiness for our value model (used by
`if website_data.get(...) and not report.website.company_name`). -/
def Val.truthy : Val → Bool
  | .vstr s => s ≠ ""
  | .vnum q => q ≠ 0
  | .vbool b => b
  | .vlist l => ¬ l.isEmpty
  | .vobj l => ¬ l.isEmpty

/-- Crude rendering of a value as a Python string, used only to build
human-readable error messages (`str(e)` interpolation); nested values
render approximately, which no claim depends on. -/
def Val.render : Val → String
  | .vstr s => s
  | .vnum q => toString q
  | .vbool b => toString b
  | .vlist _ => "<list>"
  | .vobj _ => "<dict>"

/-- The accumulated `collected_data` dict: insertion-ordered association
list from output key to payload. -/
abbrev Ctx := List (String × Val)

/-- `collected_data[k]` lookup. -/
def ctxGet (cd : Ctx) (k : String) : Option Val :=
  match cd with
  | [] => none
  | (k0, v) :: rest => if k0 = k then some v else ctxGet rest k

/-- `collected_data[k] = v` assignment: overwrite in place if the key is
present (CPython keeps its position), else append. -/
def ctxSet (cd : Ctx) (k : String) (v : Val) : Ctx :=
  match cd with
  | [] => [(k, v)]
  | (k0, v0) :: rest =>
      if k0 = k then (k, v) :: rest else (k0, v0) :: ctxSet rest k v

/-- Report status enum (models.py STATUS_CHOICES). -/
inductive Status : Type where
  | pending
  | processing
  | completed
  | failed
  | cancelled
  deriving DecidableEq, Repr

/-- One entry of `report.processing_steps` (a JSON list in models.py;
entries are dicts with keys step, status, progress, message, and - once
updated - updated_at). -/
structure StepEntry : Type where
  step : String
  status : String
  progress : Nat
  message : String
  updated_at : Option Nat
  deriving Repr, DecidableEq

/-- The Report record (models.py class Report), restricted to the mutable
fields the orchestration engine reads or writes, plus the fields of the
associated Website row that the task uses. -/
structure Report : Type where
  status : Status
  processing_started_at : Option Nat
  completed_at : Option Nat
  processing_time_seconds : Option Int
  error_messages : List String
  processing_steps : List StepEntry
  seo_data : Val
  social_data : Val
  reputation_data : Val
  competitor_data : Val
  trust_score : Val
  growth_opportunities : Val
  executive_summary : Val
  technical_analysis : Val
  website_url : String
  website_domain : String
  website_company_name : Val
  deriving Repr

/-- models.py `Report.save`: sets `completed_at` on the first save whose
status is completed, then recomputes `processing_time_seconds` whenever
both `completed_at` and `processing_started_at` are present. -/
def Report.save (r : Report) (now : Nat) : Report :=
  let r1 :=
    if r.status = Status.completed ∧ r.completed_at = none then
      { r with completed_at := some now }
    else r
  match r1.completed_at, r1.processing_started_at with
  | some c, some p =>
      { r1 with processing_time_seconds := some ((c : Int) - (p : Int)) }
  | _, _ => r1

/-- models.py `Report.progress_percentage`: fraction of processing steps
whose status is completed, as a percentage; 0 for an empty list. -/
def progress_percentage (r : Report) : ℚ :=
  if r.processing_steps.isEmpty then 0
  else
    let completed_steps : Nat :=
      r.processing_steps.countP (fun s => s.status = "completed")
    let total_steps : Nat := r.processing_steps.length
    if total_steps = 0 then 0
    else ((completed_steps : ℚ) / (total_steps : ℚ)) * 100

/-! ## The orchestrator: tasks.py generate_marketing_report -/

/-- tasks.py lines 109..123: the fresh `processing_steps` list installed at
the start of every run.  The entries have no `updated_at` key until a
stage updates them. -/
def initialSteps : List StepEntry :=
  [ ⟨"website_analysis", "pending", 0,
      "Analyzing website structure and content...", none⟩,
    ⟨"seo_analysis", "pending", 0,
      "Collecting SEO performance data...", none⟩,
    ⟨"social_analysis", "pending", 0,
      "Analyzing social media presence...", none⟩,
    ⟨"reputation_analysis", "pending", 0,
      "Checking online reputation and reviews...", none⟩,
    ⟨"competitor_analysis", "pending", 0,
      "Analyzing competitive landscape...", none⟩,
    ⟨"ai_analysis", "pending", 0, "Running AI-powered analysis...", none⟩,
    ⟨"report_compilation", "pending", 0,
      "Compiling final report and recommendations...", none⟩ ]

/-- Update the first processing step whose `step` field equals `name`
(the Python loop breaks after the first match). -/
def updateStep (steps : List StepEntry) (name status : String)
    (progress : Nat) (message : String) (now : Nat) : List StepEntry :=
  match steps with
  | [] => []
  | s :: rest =>
      if s.step = name then
        { s with status := status, progress := progress,
                 message := message, updated_at := some now } :: rest
      else s :: updateStep rest name status progress message now

/-- tasks.py `update_processing_step`: mutate the matching step entry and
save the record. -/
def update_processing_step (r : Report) (name status : String)
    (progress : Nat) (message : String) (now : Nat) : Report :=
  Report.save
    { r with processing_steps :=
        updateStep r.processing_steps name status progress message now } now

/-- tasks.py lines 99..126: entry into processing.  Unconditionally sets
status to processing, stamps `processing_started_at` with the current
time, clears `error_messages`, saves, installs a fresh
`processing_steps` list, and saves again. -/
def initReport (r : Report) (now : Nat) : Report :=
  let r1 := Report.save
    { r with status := Status.processing,
             processing_started_at := some now,
             error_messages := [] } now
  Report.save { r1 with processing_steps := initialSteps } now

/-- Per-run outcomes of the black-box stage collaborators: either the
exception message raised inside the stage body, or the returned payload.
The AI stage runs two collaborators (trust score, then growth
recommendations); a failure of either lands in the same handler, so its
outcome is a pair on success. -/
structure StageOutcomes : Type where
  website : Except String Val
  seo : Except String Val
  social : Except String Val
  reputation : Except String Val
  competitor : Except String Val
  ai : Except String (Val × Val)
  summary : Except String Val

/-- Dict fields of a payload (empty for a non-dict value). -/
def Val.fields : Val → List (String × Val)
  | .vobj fs => fs
  | _ => []

/-- tasks.py lines 139..140: a website payload carrying an `error` key is
re-raised inside the try block, so it lands in the same fallback handler
as a raised exception; this folds that check into the effective outcome
of step 1. -/
def website_effective (oc : Except String Val) : Except String Val :=
  match oc with
  | .error e => .error e
  | .ok wd =>
      match objGet wd.fields "error" with
      | some errv => .error ("Website analysis failed: " ++ errv.render)
      | none => .ok wd

/-- tasks.py lines 145..147: copy a discovered company name onto the
website row when the row has none (Python truthiness on both sides). -/
def company_update (r : Report) (wd : Val) : Report :=
  match objGet wd.fields "company_name" with
  | some cn =>
      if cn.truthy ∧ ¬ r.website_company_name.truthy then
        { r with website_company_name := cn }
      else r
  | none => r

/-- The fallback payload of the website stage (tasks.py lines 161..168). -/
def website_fallback (r : Report) (e : String) : Val :=
  Val.vobj
    [ ("url", Val.vstr r.website_url),
      ("domain", Val.vstr r.website_domain),
      ("error", Val.vstr e),
      ("has_ssl", Val.vbool (r.website_url.startsWith "https://")),
      ("title", Val.vstr ("Analysis for " ++ r.website_domain)),
      ("word_count", Val.vnum 0) ]

/-- tasks.py lines 131..168 (step 1, website analysis). -/
def stage_website (oc : Except String Val) (now : Nat)
    (rc : Report × Ctx) : Report × Ctx :=
  match website_effective oc with
  | .error e =>
      (update_processing_step rc.1 "website_analysis" "failed" 0
        ("Website analysis failed: " ++ e) now,
       ctxSet rc.2 "website_data" (website_fallback rc.1 e))
  | .ok wd =>
      (update_processing_step (company_update rc.1 wd) "website_analysis"
        "completed" 100 "Website analysis completed successfully" now,
       ctxSet rc.2 "website_data" wd)

/-- tasks.py lines 170..197 (step 2, SEO analysis).  On success the
payload is stored both in `collected_data` and in the record field
`seo_data`; on failure only `collected_data` receives the fallback. -/
def stage_seo (oc : Except String Val) (now : Nat)
    (rc : Report × Ctx) : Report × Ctx :=
  match oc with
  | .ok sd =>
      let cd1 := ctxSet rc.2 "seo_data" sd
      let r1 := { rc.1 with seo_data := sd }
      let r2 := update_processing_step r1 "seo_analysis" "completed" 100
        "SEO analysis completed successfully" now
      (r2, cd1)
  | .error e =>
      let error_msg := "SEO analysis failed: " ++ e
      let r1 := update_processing_step rc.1 "seo_analysis" "failed" 0
        error_msg now
      let cd1 := ctxSet rc.2 "seo_data" (Val.vobj
        [ ("url", Val.vstr rc.1.website_url),
          ("error", Val.vstr e),
          ("page_speed", Val.vobj
            [ ("performance_score", Val.vnum 0),
              ("seo_score", Val.vnum 0) ]),
          ("mobile_friendly", Val.vobj
            [ ("mobile_friendly", Val.vbool false) ]) ])
      (r1, cd1)

/-- The fallback payload of the social stage (tasks.py lines 224..228). -/
def social_fallback (domain e : String) : Val :=
  Val.vobj
    [ ("domain", Val.vstr domain),
      ("error", Val.vstr e),
      ("platforms", Val.vobj []) ]

/-- tasks.py lines 199..228 (step 3, social media analysis). -/
def stage_social (oc : Except String Val) (now : Nat)
    (rc : Report × Ctx) : Report × Ctx :=
  match oc with
  | .ok sd =>
      let cd1 := ctxSet rc.2 "social_data" sd
      let r1 := { rc.1 with social_data := sd }
      let r2 := update_processing_step r1 "social_analysis" "completed" 100
        "Social media analysis completed" now
      (r2, cd1)
  | .error e =>
      let error_msg := "Social media analysis failed: " ++ e
      let r1 := update_processing_step rc.1 "social_analysis" "failed" 0
        error_msg now
      let cd1 := ctxSet rc.2 "social_data"
        (social_fallback rc.1.website_domain e)
      (r1, cd1)

/-- tasks.py lines 230..260 (step 4, reputation analysis). -/
def stage_reputation (oc : Except String Val) (now : Nat)
    (rc : Report × Ctx) : Report × Ctx :=
  match oc with
  | .ok rd =>
      let cd1 := ctxSet rc.2 "reputation_data" rd
      let r1 := { rc.1 with reputation_data := rd }
      let r2 := update_processing_step r1 "reputation_analysis" "completed"
        100 "Reputation analysis completed" now
      (r2, cd1)
  | .error e =>
      let error_msg := "Reputation analysis failed: " ++ e
      let r1 := update_processing_step rc.1 "reputation_analysis" "failed" 0
        error_msg now
      let cd1 := ctxSet rc.2 "reputation_data" (Val.vobj
        [ ("domain", Val.vstr rc.1.website_domain),
          ("error", Val.vstr e),
          ("overall_rating", Val.vnum 0),
          ("reviews", Val.vlist []) ])
      (r1, cd1)

/-- tasks.py lines 262..298 (step 5, competitor analysis).  The keyword
extraction of lines 269..272 only shapes the input of the black-box
collaborator and is absorbed into the outcome. -/
def stage_competitor (oc : Except String Val) (now : Nat)
    (rc : Report × Ctx) : Report × Ctx :=
  match oc with
  | .ok cdta =>
      let cd1 := ctxSet rc.2 "competitor_data" cdta
      let r1 := { rc.1 with competitor_data := cdta }
      let r2 := update_processing_step r1 "competitor_analysis" "completed"
        100 "Competitor analysis completed" now
      (r2, cd1)
  | .error e =>
      let error_msg := "Competitor analysis failed: " ++ e
      let r1 := update_processing_step rc.1 "competitor_analysis" "failed" 0
        error_msg now
      let cd1 := ctxSet rc.2 "competitor_data" (Val.vobj
        [ ("domain", Val.vstr rc.1.website_domain),
          ("error", Val.vstr e),
          ("competitors", Val.vlist []),
          ("market_position", Val.vobj []) ])
      (r1, cd1)

/-- The AI stage fallback trust score (tasks.py line 330). -/
def ai_trust_fallback (e : String) : Val :=
  Val.vobj
    [ ("overall", Val.vnum 5),
      ("breakdown", Val.vobj []),
      ("error", Val.vstr e) ]

/-- tasks.py lines 300..333 (step 6, AI analysis).  On failure both the
context entries and the record fields `trust_score` and
`growth_opportunities` are overwritten with the fallbacks (a failure of
the growth analyzer after a successful trust computation reaches the same
handler and nets the same final state). -/
def stage_ai (oc : Except String (Val × Val)) (now : Nat)
    (rc : Report × Ctx) : Report × Ctx :=
  match oc with
  | .ok (ts, go) =>
      let cd1 := ctxSet rc.2 "trust_score" ts
      let r1 := { rc.1 with trust_score := ts }
      let cd2 := ctxSet cd1 "growth_opportunities" go
      let r2 := { r1 with growth_opportunities := go }
      let r3 := update_processing_step r2 "ai_analysis" "completed" 100
        "AI analysis completed" now
      (r3, cd2)
  | .error e =>
      let error_msg := "AI analysis failed: " ++ e
      let r1 := update_processing_step rc.1 "ai_analysis" "failed" 0
        error_msg now
      let cd1 := ctxSet rc.2 "trust_score" (ai_trust_fallback e)
      let cd2 := ctxSet cd1 "growth_opportunities" (Val.vlist [])
      let r2 := { r1 with trust_score := ai_trust_fallback e,
                          growth_opportunities := Val.vlist [] }
      (r2, cd2)

/-- tasks.py `calculate_data_quality_score`: share of collected entries
that are not dicts carrying an `error` key, as a percentage rounded to
one decimal (round-half-up here; Python rounds half to even, a
difference no claim touches). -/
def calculate_data_quality_score (cd : Ctx) : ℚ :=
  let total_sources := cd.length
  if total_sources = 0 then 0
  else
    let successful_sources := cd.countP (fun kv =>
      match kv.2 with
      | .vobj fs => (objGet fs "error").isNone
      | _ => true)
    let raw : ℚ := ((successful_sources : ℚ) / (total_sources : ℚ)) * 100
    (⌊raw * 10 + 1 / 2⌋ : ℚ) / 10

/-- Python `collected_data.get(&quot;trust_score&quot;, dict()).get(&quot;overall&quot;, 5.0)`
used by the compilation fallback summary. -/
def getTrustOverall (cd : Ctx) : Val :=
  match ctxGet cd "trust_score" with
  | some (.vobj fs) => (objGet fs "overall").getD (Val.vnum 5)
  | _ => Val.vnum 5

/-- tasks.py lines 335..375 (step 7, report compilation).  The summary
generator is the black box; success stores the executive summary and a
technical-analysis dict derived from `collected_data`, failure stores a
basic summary.  The iso-format `analysis_timestamp` string is modelled by
the numeric timestamp. -/
def stage_compilation (oc : Except String Val) (now : Nat)
    (rc : Report × Ctx) : Report × Ctx :=
  match oc with
  | .ok summ =>
      let r1 := { rc.1 with executive_summary := summ }
      let duration : Nat := now - (r1.processing_started_at.getD now)
      let r2 := { r1 with technical_analysis := (Val.vobj
        [ ("data_sources_used",
            Val.vlist (rc.2.map (fun kv => Val.vstr kv.1))),
          ("analysis_timestamp", Val.vnum now),
          ("processing_duration_seconds", Val.vnum duration),
          ("data_quality_score", Val.vnum (calculate_data_quality_score rc.2)),
          ("collection_errors", Val.vlist
            ((rc.2.filter (fun kv =>
                match kv.2 with
                | .vobj fs => (objGet fs "error").isSome
                | _ => false)).map (fun kv => Val.vstr kv.1))) ]) }
      let r3 := update_processing_step r2 "report_compilation" "completed"
        100 "Report compilation completed" now
      (r3, rc.2)
  | .error e =>
      let error_msg := "Report compilation failed: " ++ e
      let r1 := update_processing_step rc.1 "report_compilation" "failed" 0
        error_msg now
      let r2 := { r1 with executive_summary := (Val.vobj
        [ ("summary_text", Val.vstr ("Report generated for " ++
            rc.1.website_domain ++ " with basic analysis.")),
          ("organic_traffic_change", Val.vstr "+0%"),
          ("ai_visibility", getTrustOverall rc.2),
          ("avg_rating", Val.vnum 0),
          ("error", Val.vstr e) ]) }
      (r2, rc.2)

/-- tasks.py lines 377..386: final completion.  Status becomes completed
unconditionally, `completed_at` is stamped directly, the processing time
is recomputed if `processing_started_at` is set, and the record is
saved. -/
def finalize (now : Nat) (rc : Report × Ctx) : Report × Ctx :=
  let r1 := { rc.1 with status := Status.completed,
                        completed_at := some now }
  let r2 :=
    match r1.processing_started_at with
    | some p =>
        { r1 with processing_time_seconds := some ((now : Int) - (p : Int)) }
    | none => r1
  (Report.save r2 now, rc.2)

/-- The try-body of `generate_marketing_report` on an existing record:
enter processing, run the seven stages in registry order threading the
record and `collected_data`, then finalize.  This is the control flow in
which no job-level exception escapes. -/
def runStages (r : Report) (oc : StageOutcomes) (now : Nat) : Report × Ctx :=
  finalize now
    (stage_compilation oc.summary now
      (stage_ai oc.ai now
        (stage_competitor oc.competitor now
          (stage_reputation oc.reputation now
            (stage_social oc.social now
              (stage_seo oc.seo now
                (stage_website oc.website now (initReport r now, []))))))))

/-- The record store: a partial map from report id to record
(`Report.objects`). -/
abbrev Store := String → Option Report

/-- Point update of the store, modelling the last persisted state of the
record after the run. -/
def persist (st : Store) (rid : String) (r : Report) : Store :=
  fun k => if k = rid then some r else st k

/-- tasks.py lines 91..423 `generate_marketing_report` without job-level
failure: looks up the record (lines 92..97; a missing record returns the
not-found outcome and touches nothing), otherwise runs the stage pipeline
and persists the final record.  `none` in the second component is the
not-found outcome dict. -/
def generate_marketing_report (st : Store) (rid : String)
    (oc : StageOutcomes) (now : Nat) : Store × Option (Report × Ctx) :=
  match st rid with
  | none => (st, none)
  | some r =>
      (persist st rid (runStages r oc now).1, some (runStages r oc now))

/-! ## Job-level failure handling and the Celery retry envelope -/

/-- tasks.py lines 430..440: the job-level exception handler marks the
record failed, appends the exception message to `error_messages`, and
saves. -/
def fail_record (r : Report) (exc : String) (now : Nat) : Report :=
  Report.save
    { r with status := Status.failed,
             error_messages := r.error_messages ++ [exc] } now

/-- The store-level job failure handler (the record may have vanished;
then the inner update is skipped). -/
def handle_job_failure (st : Store) (rid : String) (exc : String)
    (now : Nat) : Store :=
  match st rid with
  | none => st
  | some r => persist st rid (fail_record r exc now)

/-- tasks.py line 25: `max_retries=3` on the shared task. -/
def max_retries : Nat := 3

/-- tasks.py line 461: the exponential backoff countdown before the next
attempt, given the number of retries already consumed. -/
def retry_countdown (retries : Nat) : Nat := 60 * 2 ^ retries

/-- Celery retry envelope: attempt with retry counter `i`; a failing
attempt schedules `retry_countdown i` and retries while `i` is below
`max_retries` (tasks.py lines 457..464), else gives up.  Returns the list
of scheduled delays and whether the budget was exhausted.  `fails i`
says whether attempt number `i` (0-based retry counter) raises a
job-level exception.  Fuel makes the recursion structural; the envelope
is always called with fuel `max_retries + 1`, enough for every path. -/
def job_execute_aux (fails : Nat → Bool) (i fuel : Nat) :
    List Nat × Bool :=
  match fuel with
  | 0 => ([], true)
  | fuel + 1 =>
      if fails i then
        if i < max_retries then
          let (ds, ex) := job_execute_aux fails (i + 1) fuel
          (retry_countdown i :: ds, ex)
        else ([], true)
      else ([], false)

/-- tasks.py `generate_marketing_report` as scheduled by the Job Runner:
start at retry counter 0 with enough fuel for the full budget. -/
def job_execute (fails : Nat → Bool) : List Nat × Bool :=
  job_execute_aux fails 0 (max_retries + 1)

/-! ## Maintenance sweep: tasks.py monitor_report_processing -/

/-- The timeout error appended by the stuck-job reaper
(tasks.py line 873). -/
def timeout_message : String :=
  "Report processing timed out after 30 minutes"

/-- The reaper selection predicate (tasks.py lines 860..864): status is
processing and `processing_started_at` is strictly before now minus 30
minutes (records with no start time are not selected by the filter). -/
def isStuck (r : Report) (now : Nat) : Bool :=
  decide (r.status = Status.processing) &&
    (match r.processing_started_at with
     | some t => decide (t < now - 30 * 60)
     | none => false)

/-- tasks.py lines 867..876 applied to one record: a stuck record is
forced to failed with the timeout error appended and saved; any other
record is untouched. -/
def monitorStep (r : Report) (now : Nat) : Report :=
  if isStuck r now then
    Report.save
      { r with status := Status.failed,
               error_messages := r.error_messages ++ [timeout_message] } now
  else r

/-- tasks.py `monitor_report_processing` over a finite store: every
record passes through `monitorStep`.  (The stale-pending half of the
sweep only re-enqueues tasks and mutates no record.) -/
def monitor_report_processing (store : List (String × Report))
    (now : Nat) : List (String × Report) :=
  store.map (fun kv => (kv.1, monitorStep kv.2 now))

/-! ## Registry and concrete sample inputs used by closed theorems -/

/-- The declared output keys of the seven registered stages, in registry
order (the compilation stage writes record fields, not a context key). -/
def registry_output_keys : List String :=
  [ "website_data", "seo_data", "social_data", "reputation_data",
    "competitor_data", "trust_score", "growth_opportunities" ]

/-- A freshly created pending record for https example.com covering the
model fields. -/
def sample_report : Report :=
  { status := Status.pending
    processing_started_at := none
    completed_at := none
    processing_time_seconds := none
    error_messages := []
    processing_steps := []
    seo_data := Val.vobj []
    social_data := Val.vobj []
    reputation_data := Val.vobj []
    competitor_data := Val.vobj []
    trust_score := Val.vobj []
    growth_opportunities := Val.vlist []
    executive_summary := Val.vobj []
    technical_analysis := Val.vobj []
    website_url := "https://example.com"
    website_domain := "example.com"
    website_company_name := Val.vstr "" }

/-- A record mid-processing: status processing, started at time 5, one
prior error entry and a previously mutated steps list. -/
def sample_processing_report : Report :=
  { sample_report with
      status := Status.processing
      processing_started_at := some 5
      error_messages := ["old error"]
      processing_steps :=
        [⟨"website_analysis", "completed", 100, "done", some 6⟩] }

/-- A record that just failed, with no completion timestamp. -/
def sample_failed_report : Report :=
  { sample_report with
      status := Status.failed
      processing_started_at := some 3
      error_messages := ["boom"] }

/-- A record stuck in processing since time 5. -/
def sample_stuck_report : Report :=
  { sample_report with
      status := Status.processing
      processing_started_at := some 5 }

/-- A record with both timestamps set (completed at 90, started at 40). -/
def sample_timed_report : Report :=
  { sample_report with
      status := Status.completed
      processing_started_at := some 40
      completed_at := some 90 }

/-- Stage outcomes with every collaborator succeeding. -/
def oc_all_ok : StageOutcomes :=
  { website := .ok (Val.vobj [("title", Val.vstr "Example")])
    seo := .ok (Val.vobj [("page_speed", Val.vnum 9)])
    social := .ok (Val.vobj [("platforms", Val.vobj [])])
    reputation := .ok (Val.vobj [("overall_rating", Val.vnum 4)])
    competitor := .ok (Val.vobj [("competitors", Val.vlist [])])
    ai := .ok (Val.vobj [("overall", Val.vnum 7)], Val.vlist [Val.vstr "g"])
    summary := .ok (Val.vobj [("summary_text", Val.vstr "s")]) }

/-- Stage outcomes where only the social collaborator raises. -/
def oc_social_fail : StageOutcomes :=
  { oc_all_ok with social := .error "rate limited" }

/-- Stage outcomes where all data-collection and AI stages raise. -/
def oc_many_fail : StageOutcomes :=
  { oc_all_ok with
      seo := .error "seo down"
      social := .error "social down"
      reputation := .error "rep down"
      competitor := .error "comp down"
      ai := .error "ai down" }

/-- A store where every id resolves to `sample_report`. -/
def sample_store : Store :=
  fun _ => some sample_report

/-- The empty store. -/
def empty_store : Store := fun _ => none

/-! ## Helper lemmas: context dictionary -/

@[simp] theorem ctxGet_ctxSet_same (cd : Ctx) (k : String) (v : Val) :
    ctxGet (ctxSet cd k v) k = some v := by
  induction cd with
  | nil => simp [ctxSet, ctxGet]
  | cons hd tl ih =>
      obtain ⟨k0, v0⟩ := hd
      by_cases h : k0 = k <;> simp [ctxSet, ctxGet, h, ih]

theorem ctxGet_ctxSet_ne (cd : Ctx) (k k9 : String) (v : Val) (h : k ≠ k9) :
    ctxGet (ctxSet cd k v) k9 = ctxGet cd k9 := by
  induction cd with
  | nil => simp [ctxSet, ctxGet, h]
  | cons hd tl ih =>
      obtain ⟨k0, v0⟩ := hd
      by_cases h0 : k0 = k
      · subst h0; simp [ctxSet, ctxGet, h]
      · simp [ctxSet, ctxGet, h0, ih]

theorem ctxGet_isSome_ctxSet (cd : Ctx) (k k9 : String) (v : Val)
    (h : (ctxGet cd k9).isSome) : (ctxGet (ctxSet cd k v) k9).isSome := by
  by_cases hk : k = k9
  · subst hk; simp [ctxGet_ctxSet_same]
  · rwa [ctxGet_ctxSet_ne cd k k9 v hk]

/-! ## Helper lemmas: Report.save frame -/

@[simp] theorem save_error_messages (r : Report) (now : Nat) :
    (Report.save r now).error_messages = r.error_messages := by
  unfold Report.save; dsimp only; split <;> split <;> rfl

@[simp] theorem save_processing_steps (r : Report) (now : Nat) :
    (Report.save r now).processing_steps = r.processing_steps := by
  unfold Report.save; dsimp only; split <;> split <;> rfl

@[simp] theorem save_status (r : Report) (now : Nat) :
    (Report.save r now).status = r.status := by
  unfold Report.save; dsimp only; split <;> split <;> rfl

@[simp] theorem save_processing_started_at (r : Report) (now : Nat) :
    (Report.save r now).processing_started_at = r.processing_started_at := by
  unfold Report.save; dsimp only; split <;> split <;> rfl

@[simp] theorem save_seo_data (r : Report) (now : Nat) :
    (Report.save r now).seo_data = r.seo_data := by
  unfold Report.save; dsimp only; split <;> split <;> rfl

@[simp] theorem save_social_data (r : Report) (now : Nat) :
    (Report.save r now).social_data = r.social_data := by
  unfold Report.save; dsimp only; split <;> split <;> rfl

@[simp] theorem save_reputation_data (r : Report) (now : Nat) :
    (Report.save r now).reputation_data = r.reputation_data := by
  unfold Report.save; dsimp only; split <;> split <;> rfl

@[simp] theorem save_competitor_data (r : Report) (now : Nat) :
    (Report.save r now).competitor_data = r.competitor_data := by
  unfold Report.save; dsimp only; split <;> split <;> rfl

@[simp] theorem save_trust_score (r : Report) (now : Nat) :
    (Report.save r now).trust_score = r.trust_score := by
  unfold Report.save; dsimp only; split <;> split <;> rfl

@[simp] theorem save_growth_opportunities (r : Report) (now : Nat) :
    (Report.save r now).growth_opportunities = r.growth_opportunities := by
  unfold Report.save; dsimp only; split <;> split <;> rfl

@[simp] theorem save_website_domain (r : Report) (now : Nat) :
    (Report.save r now).website_domain = r.website_domain := by
  unfold Report.save; dsimp only; split <;> split <;> rfl

/-! ## Helper lemmas: frame effects of the individual stages

For each stage, which record fields it leaves untouched and the exact
shape of its context mutation. -/

@[simp] theorem company_update_frame (r : Report) (wd : Val) :
    (company_update r wd).error_messages = r.error_messages ∧
    (company_update r wd).processing_started_at = r.processing_started_at ∧
    (company_update r wd).status = r.status ∧
    (company_update r wd).website_domain = r.website_domain ∧
    (company_update r wd).seo_data = r.seo_data ∧
    (company_update r wd).social_data = r.social_data ∧
    (company_update r wd).reputation_data = r.reputation_data ∧
    (company_update r wd).competitor_data = r.competitor_data ∧
    (company_update r wd).trust_score = r.trust_score ∧
    (company_update r wd).growth_opportunities = r.growth_opportunities ∧
    (company_update r wd).processing_steps = r.processing_steps := by
  unfold company_update
  split
  · split <;> simp
  · simp

theorem stage_website_frame (oc : Except String Val) (now : Nat)
    (rc : Report × Ctx) :
    (stage_website oc now rc).1.error_messages = rc.1.error_messages ∧
    (stage_website oc now rc).1.processing_started_at
      = rc.1.processing_started_at ∧
    (stage_website oc now rc).1.status = rc.1.status ∧
    (stage_website oc now rc).1.website_domain = rc.1.website_domain ∧
    (stage_website oc now rc).1.seo_data = rc.1.seo_data ∧
    (stage_website oc now rc).1.social_data = rc.1.social_data ∧
    (stage_website oc now rc).1.reputation_data = rc.1.reputation_data ∧
    (stage_website oc now rc).1.competitor_data = rc.1.competitor_data ∧
    (stage_website oc now rc).1.trust_score = rc.1.trust_score ∧
    (stage_website oc now rc).1.growth_opportunities
      = rc.1.growth_opportunities := by
  unfold stage_website
  split <;> simp [update_processing_step]

theorem stage_seo_frame (oc : Except String Val) (now : Nat)
    (rc : Report × Ctx) :
    (stage_seo oc now rc).1.error_messages = rc.1.error_messages ∧
    (stage_seo oc now rc).1.processing_started_at
      = rc.1.processing_started_at ∧
    (stage_seo oc now rc).1.status = rc.1.status ∧
    (stage_seo oc now rc).1.website_domain = rc.1.website_domain ∧
    (stage_seo oc now rc).1.social_data = rc.1.social_data ∧
    (stage_seo oc now rc).1.reputation_data = rc.1.reputation_data ∧
    (stage_seo oc now rc).1.competitor_data = rc.1.competitor_data ∧
    (stage_seo oc now rc).1.trust_score = rc.1.trust_score ∧
    (stage_seo oc now rc).1.growth_opportunities
      = rc.1.growth_opportunities := by
  cases oc <;> simp [stage_seo, update_processing_step]

theorem stage_social_frame (oc : Except String Val) (now : Nat)
    (rc : Report × Ctx) :
    (stage_social oc now rc).1.error_messages = rc.1.error_messages ∧
    (stage_social oc now rc).1.processing_started_at
      = rc.1.processing_started_at ∧
    (stage_social oc now rc).1.status = rc.1.status ∧
    (stage_social oc now rc).1.website_domain = rc.1.website_domain ∧
    (stage_social oc now rc).1.seo_data = rc.1.seo_data ∧
    (stage_social oc now rc).1.reputation_data = rc.1.reputation_data ∧
    (stage_social oc now rc).1.competitor_data = rc.1.competitor_data ∧
    (stage_social oc now rc).1.trust_score = rc.1.trust_score ∧
    (stage_social oc now rc).1.growth_opportunities
      = rc.1.growth_opportunities := by
  cases oc <;> simp [stage_social, update_processing_step]

theorem stage_reputation_frame (oc : Except String Val) (now : Nat)
    (rc : Report × Ctx) :
    (stage_reputation oc now rc).1.error_messages = rc.1.error_messages ∧
    (stage_reputation oc now rc).1.processing_started_at
      = rc.1.processing_started_at ∧
    (stage_reputation oc now rc).1.status = rc.1.status ∧
    (stage_reputation oc now rc).1.website_domain = rc.1.website_domain ∧
    (stage_reputation oc now rc).1.seo_data = rc.1.seo_data ∧
    (stage_reputation oc now rc).1.social_data = rc.1.social_data ∧
    (stage_reputation oc now rc).1.competitor_data = rc.1.competitor_data ∧
    (stage_reputation oc now rc).1.trust_score = rc.1.trust_score ∧
    (stage_reputation oc now rc).1.growth_opportunities
      = rc.1.growth_opportunities := by
  cases oc <;> simp [stage_reputation, update_processing_step]

theorem stage_competitor_frame (oc : Except String Val) (now : Nat)
    (rc : Report × Ctx) :
    (stage_competitor oc now rc).1.error_messages = rc.1.error_messages ∧
    (stage_competitor oc now rc).1.processing_started_at
      = rc.1.processing_started_at ∧
    (stage_competitor oc now rc).1.status = rc.1.status ∧
    (stage_competitor oc now rc).1.website_domain = rc.1.website_domain ∧
    (stage_competitor oc now rc).1.seo_data = rc.1.seo_data ∧
    (stage_competitor oc now rc).1.social_data = rc.1.social_data ∧
    (stage_competitor oc now rc).1.reputation_data
      = rc.1.reputation_data ∧
    (stage_competitor oc now rc).1.trust_score = rc.1.trust_score ∧
    (stage_competitor oc now rc).1.growth_opportunities
      = rc.1.growth_opportunities := by
  cases oc <;> simp [stage_competitor, update_processing_step]

theorem stage_ai_frame (oc : Except String (Val × Val)) (now : Nat)
    (rc : Report × Ctx) :
    (stage_ai oc now rc).1.error_messages = rc.1.error_messages ∧
    (stage_ai oc now rc).1.processing_started_at
      = rc.1.processing_started_at ∧
    (stage_ai oc now rc).1.status = rc.1.status ∧
    (stage_ai oc now rc).1.website_domain = rc.1.website_domain ∧
    (stage_ai oc now rc).1.seo_data = rc.1.seo_data ∧
    (stage_ai oc now rc).1.social_data = rc.1.social_data ∧
    (stage_ai oc now rc).1.reputation_data = rc.1.reputation_data ∧
    (stage_ai oc now rc).1.competitor_data = rc.1.competitor_data := by
  cases oc <;> simp [stage_ai, update_processing_step]

theorem stage_compilation_frame (oc : Except String Val) (now : Nat)
    (rc : Report × Ctx) :
    (stage_compilation oc now rc).1.error_messages
      = rc.1.error_messages ∧
    (stage_compilation oc now rc).1.processing_started_at
      = rc.1.processing_started_at ∧
    (stage_compilation oc now rc).1.status = rc.1.status ∧
    (stage_compilation oc now rc).1.website_domain = rc.1.website_domain ∧
    (stage_compilation oc now rc).1.seo_data = rc.1.seo_data ∧
    (stage_compilation oc now rc).1.social_data = rc.1.social_data ∧
    (stage_compilation oc now rc).1.reputation_data
      = rc.1.reputation_data ∧
    (stage_compilation oc now rc).1.competitor_data
      = rc.1.competitor_data ∧
    (stage_compilation oc now rc).1.trust_score = rc.1.trust_score ∧
    (stage_compilation oc now rc).1.growth_opportunities
      = rc.1.growth_opportunities := by
  cases oc <;> simp [stage_compilation, update_processing_step]

theorem finalize_frame (now : Nat) (rc : Report × Ctx) :
    (finalize now rc).1.status = Status.completed ∧
    (finalize now rc).1.error_messages = rc.1.error_messages ∧
    (finalize now rc).1.processing_started_at
      = rc.1.processing_started_at ∧
    (finalize now rc).1.website_domain = rc.1.website_domain ∧
    (finalize now rc).1.seo_data = rc.1.seo_data ∧
    (finalize now rc).1.social_data = rc.1.social_data ∧
    (finalize now rc).1.reputation_data = rc.1.reputation_data ∧
    (finalize now rc).1.competitor_data = rc.1.competitor_data ∧
    (finalize now rc).1.trust_score = rc.1.trust_score ∧
    (finalize now rc).1.growth_opportunities
      = rc.1.growth_opportunities ∧
    (finalize now rc).1.processing_steps = rc.1.processing_steps := by
  unfold finalize
  dsimp only
  split <;> simp [save_processing_steps]

theorem initReport_fields (r : Report) (now : Nat) :
    (initReport r now).status = Status.processing ∧
    (initReport r now).processing_started_at = some now ∧
    (initReport r now).error_messages = [] ∧
    (initReport r now).processing_steps = initialSteps ∧
    (initReport r now).website_domain = r.website_domain ∧
    (initReport r now).seo_data = r.seo_data ∧
    (initReport r now).social_data = r.social_data ∧
    (initReport r now).reputation_data = r.reputation_data ∧
    (initReport r now).competitor_data = r.competitor_data ∧
    (initReport r now).trust_score = r.trust_score ∧
    (initReport r now).growth_opportunities = r.growth_opportunities := by
  unfold initReport
  simp [save_status, save_processing_started_at, save_error_messages,
    save_processing_steps, save_website_domain, save_seo_data,
    save_social_data, save_reputation_data, save_competitor_data,
    save_trust_score, save_growth_opportunities]

/-! ## Helper lemmas: context mutations of the individual stages -/

theorem stage_website_cd (oc : Except String Val) (now : Nat)
    (rc : Report × Ctx) :
    ∃ v, (stage_website oc now rc).2 = ctxSet rc.2 "website_data" v := by
  unfold stage_website
  split <;> exact ⟨_, rfl⟩

theorem stage_seo_cd (oc : Except String Val) (now : Nat)
    (rc : Report × Ctx) :
    ∃ v, (stage_seo oc now rc).2 = ctxSet rc.2 "seo_data" v := by
  cases oc <;> exact ⟨_, rfl⟩

theorem stage_social_cd (oc : Except String Val) (now : Nat)
    (rc : Report × Ctx) :
    ∃ v, (stage_social oc now rc).2 = ctxSet rc.2 "social_data" v := by
  cases oc <;> exact ⟨_, rfl⟩

theorem stage_reputation_cd (oc : Except String Val) (now : Nat)
    (rc : Report × Ctx) :
    ∃ v, (stage_reputation oc now rc).2
      = ctxSet rc.2 "reputation_data" v := by
  cases oc <;> exact ⟨_, rfl⟩

theorem stage_competitor_cd (oc : Except String Val) (now : Nat)
    (rc : Report × Ctx) :
    ∃ v, (stage_competitor oc now rc).2
      = ctxSet rc.2 "competitor_data" v := by
  cases oc <;> exact ⟨_, rfl⟩

theorem stage_ai_cd (oc : Except String (Val × Val)) (now : Nat)
    (rc : Report × Ctx) :
    ∃ v w, (stage_ai oc now rc).2
      = ctxSet (ctxSet rc.2 "trust_score" v) "growth_opportunities" w := by
  cases oc with
  | error e => exact ⟨_, _, rfl⟩
  | ok p => obtain ⟨ts, go⟩ := p; exact ⟨_, _, rfl⟩

theorem stage_compilation_cd (oc : Except String Val) (now : Nat)
    (rc : Report × Ctx) : (stage_compilation oc now rc).2 = rc.2 := by
  cases oc <;> rfl

theorem finalize_cd (now : Nat) (rc : Report × Ctx) :
    (finalize now rc).2 = rc.2 := rfl

/-! ## Helper lemmas: failure branches -/

theorem stage_seo_error_seo_data (e : String) (now : Nat)
    (rc : Report × Ctx) :
    (stage_seo (.error e) now rc).1.seo_data = rc.1.seo_data := by
  simp [stage_seo, update_processing_step]

theorem stage_social_error_social_data (e : String) (now : Nat)
    (rc : Report × Ctx) :
    (stage_social (.error e) now rc).1.social_data = rc.1.social_data := by
  simp [stage_social, update_processing_step]

theorem stage_reputation_error_reputation_data (e : String) (now : Nat)
    (rc : Report × Ctx) :
    (stage_reputation (.error e) now rc).1.reputation_data
      = rc.1.reputation_data := by
  simp [stage_reputation, update_processing_step]

theorem stage_competitor_error_competitor_data (e : String) (now : Nat)
    (rc : Report × Ctx) :
    (stage_competitor (.error e) now rc).1.competitor_data
      = rc.1.competitor_data := by
  simp [stage_competitor, update_processing_step]

theorem stage_ai_error_fields (e : String) (now : Nat)
    (rc : Report × Ctx) :
    (stage_ai (.error e) now rc).1.trust_score = ai_trust_fallback e ∧
    (stage_ai (.error e) now rc).1.growth_opportunities
      = Val.vlist [] := by
  simp [stage_ai, update_processing_step]

theorem stage_social_error_cd (e : String) (now : Nat) (rc : Report × Ctx) :
    (stage_social (.error e) now rc).2
      = ctxSet rc.2 "social_data" (social_fallback rc.1.website_domain e) :=
  rfl

/-! ## Helper lemmas: processing-step list mutations -/

theorem stage_website_steps (oc : Except String Val) (now : Nat)
    (rc : Report × Ctx) :
    ∃ st p m, (stage_website oc now rc).1.processing_steps
      = updateStep rc.1.processing_steps "website_analysis" st p m now := by
  unfold stage_website
  split
  · exact ⟨_, _, _, save_processing_steps _ _⟩
  · refine ⟨"completed", 100, "Website analysis completed successfully", ?_⟩
    simp only [update_processing_step, save_processing_steps]
    rw [(company_update_frame _ _).2.2.2.2.2.2.2.2.2.2]

theorem stage_seo_steps (oc : Except String Val) (now : Nat)
    (rc : Report × Ctx) :
    ∃ st p m, (stage_seo oc now rc).1.processing_steps
      = updateStep rc.1.processing_steps "seo_analysis" st p m now := by
  cases oc <;> exact ⟨_, _, _, save_processing_steps _ _⟩

theorem stage_social_steps (oc : Except String Val) (now : Nat)
    (rc : Report × Ctx) :
    ∃ st p m, (stage_social oc now rc).1.processing_steps
      = updateStep rc.1.processing_steps "social_analysis" st p m now := by
  cases oc <;> exact ⟨_, _, _, save_processing_steps _ _⟩

theorem stage_social_error_steps (e : String) (now : Nat)
    (rc : Report × Ctx) :
    (stage_social (.error e) now rc).1.processing_steps
      = updateStep rc.1.processing_steps "social_analysis" "failed" 0
          ("Social media analysis failed: " ++ e) now := by
  simp [stage_social, update_processing_step, save_processing_steps]

theorem stage_reputation_steps (oc : Except String Val) (now : Nat)
    (rc : Report × Ctx) :
    ∃ st p m, (stage_reputation oc now rc).1.processing_steps
      = updateStep rc.1.processing_steps "reputation_analysis"
          st p m now := by
  cases oc <;> exact ⟨_, _, _, save_processing_steps _ _⟩

theorem stage_competitor_steps (oc : Except String Val) (now : Nat)
    (rc : Report × Ctx) :
    ∃ st p m, (stage_competitor oc now rc).1.processing_steps
      = updateStep rc.1.processing_steps "competitor_analysis"
          st p m now := by
  cases oc <;> exact ⟨_, _, _, save_processing_steps _ _⟩

theorem stage_ai_steps (oc : Except String (Val × Val)) (now : Nat)
    (rc : Report × Ctx) :
    ∃ st p m, (stage_ai oc now rc).1.processing_steps
      = updateStep rc.1.processing_steps "ai_analysis" st p m now := by
  cases oc with
  | error e => exact ⟨_, _, _, save_processing_steps _ _⟩
  | ok p => obtain ⟨ts, go⟩ := p; exact ⟨_, _, _, save_processing_steps _ _⟩

theorem stage_compilation_steps (oc : Except String Val) (now : Nat)
    (rc : Report × Ctx) :
    ∃ st p m, (stage_compilation oc now rc).1.processing_steps
      = updateStep rc.1.processing_steps "report_compilation"
          st p m now := by
  cases oc <;> exact ⟨_, _, _, save_processing_steps _ _⟩

/-! ## Projections of the frame lemmas (simp set) -/

@[simp] theorem stage_website_err (oc : Except String Val) (now : Nat)
    (rc : Report × Ctx) :
    (stage_website oc now rc).1.error_messages = rc.1.error_messages :=
  (stage_website_frame oc now rc).1

@[simp] theorem stage_website_psa (oc : Except String Val) (now : Nat)
    (rc : Report × Ctx) :
    (stage_website oc now rc).1.processing_started_at = rc.1.processing_started_at :=
  (stage_website_frame oc now rc).2.1

@[simp] theorem stage_website_status (oc : Except String Val) (now : Nat)
    (rc : Report × Ctx) :
    (stage_website oc now rc).1.status = rc.1.status :=
  (stage_website_frame oc now rc).2.2.1

@[simp] theorem stage_website_domain (oc : Except String Val) (now : Nat)
    (rc : Report × Ctx) :
    (stage_website oc now rc).1.website_domain = rc.1.website_domain :=
  (stage_website_frame oc now rc).2.2.2.1

@[simp] theorem stage_website_seo (oc : Except String Val) (now : Nat)
    (rc : Report × Ctx) :
    (stage_website oc now rc).1.seo_data = rc.1.seo_data :=
  (stage_website_frame oc now rc).2.2.2.2.1

@[simp] theorem stage_website_social (oc : Except String Val) (now : Nat)
    (rc : Report × Ctx) :
    (stage_website oc now rc).1.social_data = rc.1.social_data :=
  (stage_website_frame oc now rc).2.2.2.2.2.1

@[simp] theorem stage_website_rep (oc : Except String Val) (now : Nat)
    (rc : Report × Ctx) :
    (stage_website oc now rc).1.reputation_data = rc.1.reputation_data :=
  (stage_website_frame oc now rc).2.2.2.2.2.2.1

@[simp] theorem stage_website_comp (oc : Except String Val) (now : Nat)
    (rc : Report × Ctx) :
    (stage_website oc now rc).1.competitor_data = rc.1.competitor_data :=
  (stage_website_frame oc now rc).2.2.2.2.2.2.2.1

@[simp] theorem stage_website_trust (oc : Except String Val) (now : Nat)
    (rc : Report × Ctx) :
    (stage_website oc now rc).1.trust_score = rc.1.trust_score :=
  (stage_website_frame oc now rc).2.2.2.2.2.2.2.2.1

@[simp] theorem stage_website_growth (oc : Except String Val) (now : Nat)
    (rc : Report × Ctx) :
    (stage_website oc now rc).1.growth_opportunities = rc.1.growth_opportunities :=
  (stage_website_frame oc now rc).2.2.2.2.2.2.2.2.2

@[simp] theorem stage_seo_err (oc : Except String Val) (now : Nat)
    (rc : Report × Ctx) :
    (stage_seo oc now rc).1.error_messages = rc.1.error_messages :=
  (stage_seo_frame oc now rc).1

@[simp] theorem stage_seo_psa (oc : Except String Val) (now : Nat)
    (rc : Report × Ctx) :
    (stage_seo oc now rc).1.processing_started_at = rc.1.processing_started_at :=
  (stage_seo_frame oc now rc).2.1

@[simp] theorem stage_seo_status (oc : Except String Val) (now : Nat)
    (rc : Report × Ctx) :
    (stage_seo oc now rc).1.status = rc.1.status :=
  (stage_seo_frame oc now rc).2.2.1

@[simp] theorem stage_seo_domain (oc : Except String Val) (now : Nat)
    (rc : Report × Ctx) :
    (stage_seo oc now rc).1.website_domain = rc.1.website_domain :=
  (stage_seo_frame oc now rc).2.2.2.1

@[simp] theorem stage_seo_social (oc : Except String Val) (now : Nat)
    (rc : Report × Ctx) :
    (stage_seo oc now rc).1.social_data = rc.1.social_data :=
  (stage_seo_frame oc now rc).2.2.2.2.1

@[simp] theorem stage_seo_rep (oc : Except String Val) (now : Nat)
    (rc : Report × Ctx) :
    (stage_seo oc now rc).1.reputation_data = rc.1.reputation_data :=
  (stage_seo_frame oc now rc).2.2.2.2.2.1

@[simp] theorem stage_seo_comp (oc : Except String Val) (now : Nat)
    (rc : Report × Ctx) :
    (stage_seo oc now rc).1.competitor_data = rc.1.competitor_data :=
  (stage_seo_frame oc now rc).2.2.2.2.2.2.1

@[simp] theorem stage_seo_trust (oc : Except String Val) (now : Nat)
    (rc : Report × Ctx) :
    (stage_seo oc now rc).1.trust_score = rc.1.trust_score :=
  (stage_seo_frame oc now rc).2.2.2.2.2.2.2.1

@[simp] theorem stage_seo_growth (oc : Except String Val) (now : Nat)
    (rc : Report × Ctx) :
    (stage_seo oc now rc).1.growth_opportunities = rc.1.growth_opportunities :=
  (stage_seo_frame oc now rc).2.2.2.2.2.2.2.2

@[simp] theorem stage_social_err (oc : Except String Val) (now : Nat)
    (rc : Report × Ctx) :
    (stage_social oc now rc).1.error_messages = rc.1.error_messages :=
  (stage_social_frame oc now rc).1

@[simp] theorem stage_social_psa (oc : Except String Val) (now : Nat)
    (rc : Report × Ctx) :
    (stage_social oc now rc).1.processing_started_at = rc.1.processing_started_at :=
  (stage_social_frame oc now rc).2.1

@[simp] theorem stage_social_status (oc : Except String Val) (now : Nat)
    (rc : Report × Ctx) :
    (stage_social oc now rc).1.status = rc.1.status :=
  (stage_social_frame oc now rc).2.2.1

@[simp] theorem stage_social_domain (oc : Except String Val) (now : Nat)
    (rc : Report × Ctx) :
    (stage_social oc now rc).1.website_domain = rc.1.website_domain :=
  (stage_social_frame oc now rc).2.2.2.1

@[simp] theorem stage_social_seo (oc : Except String Val) (now : Nat)
    (rc : Report × Ctx) :
    (stage_social oc now rc).1.seo_data = rc.1.seo_data :=
  (stage_social_frame oc now rc).2.2.2.2.1

@[simp] theorem stage_social_rep (oc : Except String Val) (now : Nat)
    (rc : Report × Ctx) :
    (stage_social oc now rc).1.reputation_data = rc.1.reputation_data :=
  (stage_social_frame oc now rc).2.2.2.2.2.1

@[simp] theorem stage_social_comp (oc : Except String Val) (now : Nat)
    (rc : Report × Ctx) :
    (stage_social oc now rc).1.competitor_data = rc.1.competitor_data :=
  (stage_social_frame oc now rc).2.2.2.2.2.2.1

@[simp] theorem stage_social_trust (oc : Except String Val) (now : Nat)
    (rc : Report × Ctx) :
    (stage_social oc now rc).1.trust_score = rc.1.trust_score :=
  (stage_social_frame oc now rc).2.2.2.2.2.2.2.1

@[simp] theorem stage_social_growth (oc : Except String Val) (now : Nat)
    (rc : Report × Ctx) :
    (stage_social oc now rc).1.growth_opportunities = rc.1.growth_opportunities :=
  (stage_social_frame oc now rc).2.2.2.2.2.2.2.2

@[simp] theorem stage_reputation_err (oc : Except String Val) (now : Nat)
    (rc : Report × Ctx) :
    (stage_reputation oc now rc).1.error_messages = rc.1.error_messages :=
  (stage_reputation_frame oc now rc).1

@[simp] theorem stage_reputation_psa (oc : Except String Val) (now : Nat)
    (rc : Report × Ctx) :
    (stage_reputation oc now rc).1.processing_started_at = rc.1.processing_started_at :=
  (stage_reputation_frame oc now rc).2.1

@[simp] theorem stage_reputation_status (oc : Except String Val) (now : Nat)
    (rc : Report × Ctx) :
    (stage_reputation oc now rc).1.status = rc.1.status :=
  (stage_reputation_frame oc now rc).2.2.1

@[simp] theorem stage_reputation_domain (oc : Except String Val) (now : Nat)
    (rc : Report × Ctx) :
    (stage_reputation oc now rc).1.website_domain = rc.1.website_domain :=
  (stage_reputation_frame oc now rc).2.2.2.1

@[simp] theorem stage_reputation_seo (oc : Except String Val) (now : Nat)
    (rc : Report × Ctx) :
    (stage_reputation oc now rc).1.seo_data = rc.1.seo_data :=
  (stage_reputation_frame oc now rc).2.2.2.2.1

@[simp] theorem stage_reputation_social (oc : Except String Val) (now : Nat)
    (rc : Report × Ctx) :
    (stage_reputation oc now rc).1.social_data = rc.1.social_data :=
  (stage_reputation_frame oc now rc).2.2.2.2.2.1

@[simp] theorem stage_reputation_comp (oc : Except String Val) (now : Nat)
    (rc : Report × Ctx) :
    (stage_reputation oc now rc).1.competitor_data = rc.1.competitor_data :=
  (stage_reputation_frame oc now rc).2.2.2.2.2.2.1

@[simp] theorem stage_reputation_trust (oc : Except String Val) (now : Nat)
    (rc : Report × Ctx) :
    (stage_reputation oc now rc).1.trust_score = rc.1.trust_score :=
  (stage_reputation_frame oc now rc).2.2.2.2.2.2.2.1

@[simp] theorem stage_reputation_growth (oc : Except String Val) (now : Nat)
    (rc : Report × Ctx) :
    (stage_reputation oc now rc).1.growth_opportunities = rc.1.growth_opportunities :=
  (stage_reputation_frame oc now rc).2.2.2.2.2.2.2.2

@[simp] theorem stage_competitor_err (oc : Except String Val) (now : Nat)
    (rc : Report × Ctx) :
    (stage_competitor oc now rc).1.error_messages = rc.1.error_messages :=
  (stage_competitor_frame oc now rc).1

@[simp] theorem stage_competitor_psa (oc : Except String Val) (now : Nat)
    (rc : Report × Ctx) :
    (stage_competitor oc now rc).1.processing_started_at = rc.1.processing_started_at :=
  (stage_competitor_frame oc now rc).2.1

@[simp] theorem stage_competitor_status (oc : Except String Val) (now : Nat)
    (rc : Report × Ctx) :
    (stage_competitor oc now rc).1.status = rc.1.status :=
  (stage_competitor_frame oc now rc).2.2.1

@[simp] theorem stage_competitor_domain (oc : Except String Val) (now : Nat)
    (rc : Report × Ctx) :
    (stage_competitor oc now rc).1.website_domain = rc.1.website_domain :=
  (stage_competitor_frame oc now rc).2.2.2.1

@[simp] theorem stage_competitor_seo (oc : Except String Val) (now : Nat)
    (rc : Report × Ctx) :
    (stage_competitor oc now rc).1.seo_data = rc.1.seo_data :=
  (stage_competitor_frame oc now rc).2.2.2.2.1

@[simp] theorem stage_competitor_social (oc : Except String Val) (now : Nat)
    (rc : Report × Ctx) :
    (stage_competitor oc now rc).1.social_data = rc.1.social_data :=
  (stage_competitor_frame oc now rc).2.2.2.2.2.1

@[simp] theorem stage_competitor_rep (oc : Except String Val) (now : Nat)
    (rc : Report × Ctx) :
    (stage_competitor oc now rc).1.reputation_data = rc.1.reputation_data :=
  (stage_competitor_frame oc now rc).2.2.2.2.2.2.1

@[simp] theorem stage_competitor_trust (oc : Except String Val) (now : Nat)
    (rc : Report × Ctx) :
    (stage_competitor oc now rc).1.trust_score = rc.1.trust_score :=
  (stage_competitor_frame oc now rc).2.2.2.2.2.2.2.1

@[simp] theorem stage_competitor_growth (oc : Except String Val) (now : Nat)
    (rc : Report × Ctx) :
    (stage_competitor oc now rc).1.growth_opportunities = rc.1.growth_opportunities :=
  (stage_competitor_frame oc now rc).2.2.2.2.2.2.2.2

@[simp] theorem stage_ai_err (oc : Except String (Val × Val)) (now : Nat)
    (rc : Report × Ctx) :
    (stage_ai oc now rc).1.error_messages = rc.1.error_messages :=
  (stage_ai_frame oc now rc).1

@[simp] theorem stage_ai_psa (oc : Except String (Val × Val)) (now : Nat)
    (rc : Report × Ctx) :
    (stage_ai oc now rc).1.processing_started_at = rc.1.processing_started_at :=
  (stage_ai_frame oc now rc).2.1

@[simp] theorem stage_ai_status (oc : Except String (Val × Val)) (now : Nat)
    (rc : Report × Ctx) :
    (stage_ai oc now rc).1.status = rc.1.status :=
  (stage_ai_frame oc now rc).2.2.1

@[simp] theorem stage_ai_domain (oc : Except String (Val × Val)) (now : Nat)
    (rc : Report × Ctx) :
    (stage_ai oc now rc).1.website_domain = rc.1.website_domain :=
  (stage_ai_frame oc now rc).2.2.2.1

@[simp] theorem stage_ai_seo (oc : Except String (Val × Val)) (now : Nat)
    (rc : Report × Ctx) :
    (stage_ai oc now rc).1.seo_data = rc.1.seo_data :=
  (stage_ai_frame oc now rc).2.2.2.2.1

@[simp] theorem stage_ai_social (oc : Except String (Val × Val)) (now : Nat)
    (rc : Report × Ctx) :
    (stage_ai oc now rc).1.social_data = rc.1.social_data :=
  (stage_ai_frame oc now rc).2.2.2.2.2.1

@[simp] theorem stage_ai_rep (oc : Except String (Val × Val)) (now : Nat)
    (rc : Report × Ctx) :
    (stage_ai oc now rc).1.reputation_data = rc.1.reputation_data :=
  (stage_ai_frame oc now rc).2.2.2.2.2.2.1

@[simp] theorem stage_ai_comp (oc : Except String (Val × Val)) (now : Nat)
    (rc : Report × Ctx) :
    (stage_ai oc now rc).1.competitor_data = rc.1.competitor_data :=
  (stage_ai_frame oc now rc).2.2.2.2.2.2.2

@[simp] theorem stage_compilation_err (oc : Except String Val) (now : Nat)
    (rc : Report × Ctx) :
    (stage_compilation oc now rc).1.error_messages = rc.1.error_messages :=
  (stage_compilation_frame oc now rc).1

@[simp] theorem stage_compilation_psa (oc : Except String Val) (now : Nat)
    (rc : Report × Ctx) :
    (stage_compilation oc now rc).1.processing_started_at = rc.1.processing_started_at :=
  (stage_compilation_frame oc now rc).2.1

@[simp] theorem stage_compilation_status (oc : Except String Val) (now : Nat)
    (rc : Report × Ctx) :
    (stage_compilation oc now rc).1.status = rc.1.status :=
  (stage_compilation_frame oc now rc).2.2.1

@[simp] theorem stage_compilation_domain (oc : Except String Val) (now : Nat)
    (rc : Report × Ctx) :
    (stage_compilation oc now rc).1.website_domain = rc.1.website_domain :=
  (stage_compilation_frame oc now rc).2.2.2.1

@[simp] theorem stage_compilation_seo (oc : Except String Val) (now : Nat)
    (rc : Report × Ctx) :
    (stage_compilation oc now rc).1.seo_data = rc.1.seo_data :=
  (stage_compilation_frame oc now rc).2.2.2.2.1

@[simp] theorem stage_compilation_social (oc : Except String Val) (now : Nat)
    (rc : Report × Ctx) :
    (stage_compilation oc now rc).1.social_data = rc.1.social_data :=
  (stage_compilation_frame oc now rc).2.2.2.2.2.1

@[simp] theorem stage_compilation_rep (oc : Except String Val) (now : Nat)
    (rc : Report × Ctx) :
    (stage_compilation oc now rc).1.reputation_data = rc.1.reputation_data :=
  (stage_compilation_frame oc now rc).2.2.2.2.2.2.1

@[simp] theorem stage_compilation_comp (oc : Except String Val) (now : Nat)
    (rc : Report × Ctx) :
    (stage_compilation oc now rc).1.competitor_data = rc.1.competitor_data :=
  (stage_compilation_frame oc now rc).2.2.2.2.2.2.2.1

@[simp] theorem stage_compilation_trust (oc : Except String Val) (now : Nat)
    (rc : Report × Ctx) :
    (stage_compilation oc now rc).1.trust_score = rc.1.trust_score :=
  (stage_compilation_frame oc now rc).2.2.2.2.2.2.2.2.1

@[simp] theorem stage_compilation_growth (oc : Except String Val) (now : Nat)
    (rc : Report × Ctx) :
    (stage_compilation oc now rc).1.growth_opportunities = rc.1.growth_opportunities :=
  (stage_compilation_frame oc now rc).2.2.2.2.2.2.2.2.2

@[simp] theorem finalize_status (now : Nat) (rc : Report × Ctx) :
    (finalize now rc).1.status = Status.completed :=
  (finalize_frame now rc).1

@[simp] theorem finalize_err (now : Nat) (rc : Report × Ctx) :
    (finalize now rc).1.error_messages = rc.1.error_messages :=
  (finalize_frame now rc).2.1

@[simp] theorem finalize_psa (now : Nat) (rc : Report × Ctx) :
    (finalize now rc).1.processing_started_at = rc.1.processing_started_at :=
  (finalize_frame now rc).2.2.1

@[simp] theorem finalize_domain (now : Nat) (rc : Report × Ctx) :
    (finalize now rc).1.website_domain = rc.1.website_domain :=
  (finalize_frame now rc).2.2.2.1

@[simp] theorem finalize_seo (now : Nat) (rc : Report × Ctx) :
    (finalize now rc).1.seo_data = rc.1.seo_data :=
  (finalize_frame now rc).2.2.2.2.1

@[simp] theorem finalize_social (now : Nat) (rc : Report × Ctx) :
    (finalize now rc).1.social_data = rc.1.social_data :=
  (finalize_frame now rc).2.2.2.2.2.1

@[simp] theorem finalize_rep (now : Nat) (rc : Report × Ctx) :
    (finalize now rc).1.reputation_data = rc.1.reputation_data :=
  (finalize_frame now rc).2.2.2.2.2.2.1

@[simp] theorem finalize_comp (now : Nat) (rc : Report × Ctx) :
    (finalize now rc).1.competitor_data = rc.1.competitor_data :=
  (finalize_frame now rc).2.2.2.2.2.2.2.1

@[simp] theorem finalize_trust (now : Nat) (rc : Report × Ctx) :
    (finalize now rc).1.trust_score = rc.1.trust_score :=
  (finalize_frame now rc).2.2.2.2.2.2.2.2.1

@[simp] theorem finalize_growth (now : Nat) (rc : Report × Ctx) :
    (finalize now rc).1.growth_opportunities = rc.1.growth_opportunities :=
  (finalize_frame now rc).2.2.2.2.2.2.2.2.2.1

@[simp] theorem finalize_steps (now : Nat) (rc : Report × Ctx) :
    (finalize now rc).1.processing_steps = rc.1.processing_steps :=
  (finalize_frame now rc).2.2.2.2.2.2.2.2.2.2

@[simp] theorem initReport_status (r : Report) (now : Nat) :
    (initReport r now).status = Status.processing :=
  (initReport_fields r now).1

@[simp] theorem initReport_psa (r : Report) (now : Nat) :
    (initReport r now).processing_started_at = some now :=
  (initReport_fields r now).2.1

@[simp] theorem initReport_err (r : Report) (now : Nat) :
    (initReport r now).error_messages = [] :=
  (initReport_fields r now).2.2.1

@[simp] theorem initReport_steps (r : Report) (now : Nat) :
    (initReport r now).processing_steps = initialSteps :=
  (initReport_fields r now).2.2.2.1

@[simp] theorem initReport_domain (r : Report) (now : Nat) :
    (initReport r now).website_domain = r.website_domain :=
  (initReport_fields r now).2.2.2.2.1

@[simp] theorem initReport_seo (r : Report) (now : Nat) :
    (initReport r now).seo_data = r.seo_data :=
  (initReport_fields r now).2.2.2.2.2.1

@[simp] theorem initReport_social (r : Report) (now : Nat) :
    (initReport r now).social_data = r.social_data :=
  (initReport_fields r now).2.2.2.2.2.2.1

@[simp] theorem initReport_rep (r : Report) (now : Nat) :
    (initReport r now).reputation_data = r.reputation_data :=
  (initReport_fields r now).2.2.2.2.2.2.2.1

@[simp] theorem initReport_comp (r : Report) (now : Nat) :
    (initReport r now).competitor_data = r.competitor_data :=
  (initReport_fields r now).2.2.2.2.2.2.2.2.1

@[simp] theorem initReport_trust (r : Report) (now : Nat) :
    (initReport r now).trust_score = r.trust_score :=
  (initReport_fields r now).2.2.2.2.2.2.2.2.2.1

@[simp] theorem initReport_growth (r : Report) (now : Nat) :
    (initReport r now).growth_opportunities = r.growth_opportunities :=
  (initReport_fields r now).2.2.2.2.2.2.2.2.2.2

/-! ## Context monotonicity and preservation through stages -/

theorem stage_website_cd_mono (oc : Except String Val) (now : Nat)
    (rc : Report × Ctx) (k : String)
    (h : (ctxGet rc.2 k).isSome) :
    (ctxGet (stage_website oc now rc).2 k).isSome := by
  obtain ⟨v, hv⟩ := stage_website_cd oc now rc
  rw [hv]; exact ctxGet_isSome_ctxSet _ _ _ _ h

theorem stage_seo_cd_mono (oc : Except String Val) (now : Nat)
    (rc : Report × Ctx) (k : String)
    (h : (ctxGet rc.2 k).isSome) :
    (ctxGet (stage_seo oc now rc).2 k).isSome := by
  obtain ⟨v, hv⟩ := stage_seo_cd oc now rc
  rw [hv]; exact ctxGet_isSome_ctxSet _ _ _ _ h

theorem stage_social_cd_mono (oc : Except String Val) (now : Nat)
    (rc : Report × Ctx) (k : String)
    (h : (ctxGet rc.2 k).isSome) :
    (ctxGet (stage_social oc now rc).2 k).isSome := by
  obtain ⟨v, hv⟩ := stage_social_cd oc now rc
  rw [hv]; exact ctxGet_isSome_ctxSet _ _ _ _ h

theorem stage_reputation_cd_mono (oc : Except String Val) (now : Nat)
    (rc : Report × Ctx) (k : String)
    (h : (ctxGet rc.2 k).isSome) :
    (ctxGet (stage_reputation oc now rc).2 k).isSome := by
  obtain ⟨v, hv⟩ := stage_reputation_cd oc now rc
  rw [hv]; exact ctxGet_isSome_ctxSet _ _ _ _ h

theorem stage_competitor_cd_mono (oc : Except String Val) (now : Nat)
    (rc : Report × Ctx) (k : String)
    (h : (ctxGet rc.2 k).isSome) :
    (ctxGet (stage_competitor oc now rc).2 k).isSome := by
  obtain ⟨v, hv⟩ := stage_competitor_cd oc now rc
  rw [hv]; exact ctxGet_isSome_ctxSet _ _ _ _ h

theorem stage_ai_cd_mono (oc : Except String (Val × Val)) (now : Nat)
    (rc : Report × Ctx) (k : String)
    (h : (ctxGet rc.2 k).isSome) :
    (ctxGet (stage_ai oc now rc).2 k).isSome := by
  obtain ⟨v, w, hv⟩ := stage_ai_cd oc now rc
  rw [hv]
  exact ctxGet_isSome_ctxSet _ _ _ _ (ctxGet_isSome_ctxSet _ _ _ _ h)

theorem stage_website_cd_covers (oc : Except String Val) (now : Nat)
    (rc : Report × Ctx) :
    (ctxGet (stage_website oc now rc).2 "website_data").isSome := by
  obtain ⟨v, hv⟩ := stage_website_cd oc now rc
  rw [hv, ctxGet_ctxSet_same]; rfl

theorem stage_seo_cd_covers (oc : Except String Val) (now : Nat)
    (rc : Report × Ctx) :
    (ctxGet (stage_seo oc now rc).2 "seo_data").isSome := by
  obtain ⟨v, hv⟩ := stage_seo_cd oc now rc
  rw [hv, ctxGet_ctxSet_same]; rfl

theorem stage_social_cd_covers (oc : Except String Val) (now : Nat)
    (rc : Report × Ctx) :
    (ctxGet (stage_social oc now rc).2 "social_data").isSome := by
  obtain ⟨v, hv⟩ := stage_social_cd oc now rc
  rw [hv, ctxGet_ctxSet_same]; rfl

theorem stage_reputation_cd_covers (oc : Except String Val) (now : Nat)
    (rc : Report × Ctx) :
    (ctxGet (stage_reputation oc now rc).2 "reputation_data").isSome := by
  obtain ⟨v, hv⟩ := stage_reputation_cd oc now rc
  rw [hv, ctxGet_ctxSet_same]; rfl

theorem stage_competitor_cd_covers (oc : Except String Val) (now : Nat)
    (rc : Report × Ctx) :
    (ctxGet (stage_competitor oc now rc).2 "competitor_data").isSome := by
  obtain ⟨v, hv⟩ := stage_competitor_cd oc now rc
  rw [hv, ctxGet_ctxSet_same]; rfl

theorem stage_ai_cd_covers (oc : Except String (Val × Val)) (now : Nat)
    (rc : Report × Ctx) :
    (ctxGet (stage_ai oc now rc).2 "trust_score").isSome ∧
    (ctxGet (stage_ai oc now rc).2 "growth_opportunities").isSome := by
  obtain ⟨v, w, hv⟩ := stage_ai_cd oc now rc
  constructor
  · rw [hv, ctxGet_ctxSet_ne _ _ _ _ (by decide), ctxGet_ctxSet_same]; rfl
  · rw [hv, ctxGet_ctxSet_same]; rfl

theorem stage_reputation_cd_pres (oc : Except String Val) (now : Nat)
    (rc : Report × Ctx) (k : String) (h : "reputation_data" ≠ k) :
    ctxGet (stage_reputation oc now rc).2 k = ctxGet rc.2 k := by
  obtain ⟨v, hv⟩ := stage_reputation_cd oc now rc
  rw [hv, ctxGet_ctxSet_ne _ _ _ _ h]

theorem stage_competitor_cd_pres (oc : Except String Val) (now : Nat)
    (rc : Report × Ctx) (k : String) (h : "competitor_data" ≠ k) :
    ctxGet (stage_competitor oc now rc).2 k = ctxGet rc.2 k := by
  obtain ⟨v, hv⟩ := stage_competitor_cd oc now rc
  rw [hv, ctxGet_ctxSet_ne _ _ _ _ h]

theorem stage_ai_cd_pres (oc : Except String (Val × Val)) (now : Nat)
    (rc : Report × Ctx) (k : String) (h1 : "trust_score" ≠ k)
    (h2 : "growth_opportunities" ≠ k) :
    ctxGet (stage_ai oc now rc).2 k = ctxGet rc.2 k := by
  obtain ⟨v, w, hv⟩ := stage_ai_cd oc now rc
  rw [hv, ctxGet_ctxSet_ne _ _ _ _ h2, ctxGet_ctxSet_ne _ _ _ _ h1]

/-! ## End-to-end facts about a full orchestrator run -/

theorem runStages_status (r : Report) (oc : StageOutcomes) (now : Nat) :
    (runStages r oc now).1.status = Status.completed := by
  unfold runStages; simp

theorem runStages_error_messages (r : Report) (oc : StageOutcomes)
    (now : Nat) : (runStages r oc now).1.error_messages = [] := by
  unfold runStages; simp

theorem runStages_processing_started_at (r : Report) (oc : StageOutcomes)
    (now : Nat) :
    (runStages r oc now).1.processing_started_at = some now := by
  unfold runStages; simp

theorem mem_updateStep_of_ne (steps : List StepEntry)
    (name st : String) (p : Nat) (m : String) (now : Nat) (e : StepEntry)
    (he : e ∈ steps) (hne : e.step ≠ name) :
    e ∈ updateStep steps name st p m now := by
  induction steps with
  | nil => cases he
  | cons s rest ih =>
      rcases List.mem_cons.mp he with he0 | he0
      · subst he0
        unfold updateStep
        rw [if_neg hne]
        exact List.mem_cons_self _ _
      · unfold updateStep
        split
        · exact List.mem_cons_of_mem _ he0
        · exact List.mem_cons_of_mem _ (ih he0)

theorem updateStep_mem_self (steps : List StepEntry)
    (name st : String) (p : Nat) (m : String) (now : Nat)
    (h : ∃ s ∈ steps, s.step = name) :
    (⟨name, st, p, m, some now⟩ : StepEntry)
      ∈ updateStep steps name st p m now := by
  induction steps with
  | nil => obtain ⟨s, hs, _⟩ := h; cases hs
  | cons s rest ih =>
      unfold updateStep
      by_cases hs : s.step = name
      · rw [if_pos hs]
        have hhd :
            (⟨s.step, st, p, m, some now⟩ : StepEntry)
              = ⟨name, st, p, m, some now⟩ := by
          rw [hs]
        exact hhd ▸ List.mem_cons_self _ _
      · rw [if_neg hs]
        obtain ⟨t, ht, htn⟩ := h
        rcases List.mem_cons.mp ht with ht0 | ht0
        · subst ht0; exact absurd htn hs
        · exact List.mem_cons_of_mem _ (ih ⟨t, ht0, htn⟩)

theorem exists_step_updateStep_of_ne (steps : List StepEntry)
    (name st : String) (p : Nat) (m : String) (now : Nat) (n : String)
    (h : ∃ s ∈ steps, s.step = n) (hne : n ≠ name) :
    ∃ s ∈ updateStep steps name st p m now, s.step = n := by
  obtain ⟨s, hs, hn⟩ := h
  refine ⟨s, mem_updateStep_of_ne steps name st p m now s hs ?_, hn⟩
  rw [hn]; exact hne

/-! ## Main run-level lemmas -/

theorem runStages_cd_covers (r : Report) (oc : StageOutcomes) (now : Nat) :
    ∀ k ∈ registry_output_keys, (ctxGet (runStages r oc now).2 k).isSome := by
  intro k hk
  unfold runStages
  rw [finalize_cd, stage_compilation_cd]
  simp only [registry_output_keys, List.mem_cons, List.not_mem_nil,
    or_false] at hk
  rcases hk with rfl | rfl | rfl | rfl | rfl | rfl | rfl
  · exact stage_ai_cd_mono _ _ _ _ (stage_competitor_cd_mono _ _ _ _
      (stage_reputation_cd_mono _ _ _ _ (stage_social_cd_mono _ _ _ _
        (stage_seo_cd_mono _ _ _ _ (stage_website_cd_covers _ _ _)))))
  · exact stage_ai_cd_mono _ _ _ _ (stage_competitor_cd_mono _ _ _ _
      (stage_reputation_cd_mono _ _ _ _ (stage_social_cd_mono _ _ _ _
        (stage_seo_cd_covers _ _ _))))
  · exact stage_ai_cd_mono _ _ _ _ (stage_competitor_cd_mono _ _ _ _
      (stage_reputation_cd_mono _ _ _ _ (stage_social_cd_covers _ _ _)))
  · exact stage_ai_cd_mono _ _ _ _ (stage_competitor_cd_mono _ _ _ _
      (stage_reputation_cd_covers _ _ _))
  · exact stage_ai_cd_mono _ _ _ _ (stage_competitor_cd_covers _ _ _)
  · exact (stage_ai_cd_covers _ _ _).1
  · exact (stage_ai_cd_covers _ _ _).2

theorem runStages_social_cd_of_fail (r : Report) (oc : StageOutcomes)
    (now : Nat) (e : String) (h : oc.social = .error e) :
    ctxGet (runStages r oc now).2 "social_data"
      = some (social_fallback r.website_domain e) := by
  unfold runStages
  rw [finalize_cd, stage_compilation_cd,
    stage_ai_cd_pres _ _ _ _ (by decide) (by decide),
    stage_competitor_cd_pres _ _ _ _ (by decide),
    stage_reputation_cd_pres _ _ _ _ (by decide),
    h, stage_social_error_cd, ctxGet_ctxSet_same]
  simp

theorem runStages_social_step_of_fail (r : Report) (oc : StageOutcomes)
    (now : Nat) (e : String) (h : oc.social = .error e) :
    (⟨"social_analysis", "failed", 0,
        "Social media analysis failed: " ++ e, some now⟩ : StepEntry)
      ∈ (runStages r oc now).1.processing_steps := by
  unfold runStages
  rw [finalize_steps]
  obtain ⟨s7, p7, m7, h7⟩ := stage_compilation_steps oc.summary now _
  rw [h7]
  refine mem_updateStep_of_ne _ _ _ _ _ _ _ ?_ (by simp)
  obtain ⟨s6, p6, m6, h6⟩ := stage_ai_steps oc.ai now _
  rw [h6]
  refine mem_updateStep_of_ne _ _ _ _ _ _ _ ?_ (by simp)
  obtain ⟨s5, p5, m5, h5⟩ := stage_competitor_steps oc.competitor now _
  rw [h5]
  refine mem_updateStep_of_ne _ _ _ _ _ _ _ ?_ (by simp)
  obtain ⟨s4, p4, m4, h4⟩ := stage_reputation_steps oc.reputation now _
  rw [h4]
  refine mem_updateStep_of_ne _ _ _ _ _ _ _ ?_ (by simp)
  rw [h, stage_social_error_steps]
  apply updateStep_mem_self
  obtain ⟨s2, p2, m2, h2⟩ := stage_seo_steps oc.seo now _
  rw [h2]
  refine exists_step_updateStep_of_ne _ _ _ _ _ _ _ ?_ (by decide)
  obtain ⟨s1, p1, m1, h1⟩ := stage_website_steps oc.website now _
  rw [h1]
  refine exists_step_updateStep_of_ne _ _ _ _ _ _ _ ?_ (by decide)
  rw [initReport_steps]
  exact ⟨⟨"social_analysis", "pending", 0,
    "Analyzing social media presence...", none⟩, by decide, rfl⟩

/-! ## Report.save: completed_at and processing-time lemmas -/

theorem save_completed_at (r : Report) (now : Nat) :
    (Report.save r now).completed_at =
      if r.status = Status.completed ∧ r.completed_at = none then some now
      else r.completed_at := by
  unfold Report.save
  dsimp only
  split <;> split <;> simp_all

theorem save_completed_at_of_set (r : Report) (now : Nat) (c : Nat)
    (h : r.completed_at = some c) :
    (Report.save r now).completed_at = some c := by
  rw [save_completed_at, if_neg, h]
  rintro ⟨-, hn⟩
  rw [h] at hn
  cases hn

theorem save_ptime (r : Report) (now : Nat) (c p : Nat)
    (h1 : r.completed_at = some c) (h2 : r.processing_started_at = some p) :
    (Report.save r now).processing_time_seconds
      = some ((c : Int) - (p : Int)) := by
  have hno : ¬ (r.status = Status.completed ∧ r.completed_at = none) := by
    rintro ⟨-, hn⟩
    rw [h1] at hn
    cases hn
  unfold Report.save
  dsimp only
  rw [if_neg hno]
  rw [show r.completed_at = some c from h1,
      show r.processing_started_at = some p from h2]

/-! ## Reaper lemmas -/

theorem monitorStep_of_stuck (r : Report) (now : Nat)
    (h : isStuck r now = true) :
    (monitorStep r now).status = Status.failed ∧
    (monitorStep r now).error_messages
      = r.error_messages ++ [timeout_message] ∧
    (monitorStep r now).processing_started_at
      = r.processing_started_at := by
  simp [monitorStep, h, save_status, save_error_messages,
    save_processing_started_at]

theorem monitorStep_of_not_stuck (r : Report) (now : Nat)
    (h : isStuck r now = false) : monitorStep r now = r := by
  simp [monitorStep, h]

theorem isStuck_monitorStep (r : Report) (now now2 : Nat)
    (h : isStuck r now = true) :
    isStuck (monitorStep r now) now2 = false := by
  have hst := (monitorStep_of_stuck r now h).1
  simp [isStuck, hst]

theorem monitorStep_idem (r : Report) (now now2 : Nat)
    (h : isStuck r now = true) :
    monitorStep (monitorStep r now) now2 = monitorStep r now :=
  monitorStep_of_not_stuck _ _ (isStuck_monitorStep r now now2 h)

theorem monitorStep_same_now_idem (r : Report) (now : Nat) :
    monitorStep (monitorStep r now) now = monitorStep r now := by
  by_cases h : isStuck r now = true
  · exact monitorStep_idem r now now h
  · rw [monitorStep_of_not_stuck r now (by simpa using h)]
    exact monitorStep_of_not_stuck r now (by simpa using h)

theorem runStages_seo_of_fail (r : Report) (oc : StageOutcomes)
    (now : Nat) (e : String) (h : oc.seo = .error e) :
    (runStages r oc now).1.seo_data = r.seo_data := by
  unfold runStages; simp [h, stage_seo_error_seo_data]

theorem runStages_social_of_fail (r : Report) (oc : StageOutcomes)
    (now : Nat) (e : String) (h : oc.social = .error e) :
    (runStages r oc now).1.social_data = r.social_data := by
  unfold runStages; simp [h, stage_social_error_social_data]

theorem runStages_reputation_of_fail (r : Report) (oc : StageOutcomes)
    (now : Nat) (e : String) (h : oc.reputation = .error e) :
    (runStages r oc now).1.reputation_data = r.reputation_data := by
  unfold runStages; simp [h, stage_reputation_error_reputation_data]

theorem runStages_competitor_of_fail (r : Report) (oc : StageOutcomes)
    (now : Nat) (e : String) (h : oc.competitor = .error e) :
    (runStages r oc now).1.competitor_data = r.competitor_data := by
  unfold runStages; simp [h, stage_competitor_error_competitor_data]

theorem runStages_ai_of_fail (r : Report) (oc : StageOutcomes)
    (now : Nat) (e : String) (h : oc.ai = .error e) :
    (runStages r oc now).1.trust_score = ai_trust_fallback e ∧
    (runStages r oc now).1.growth_opportunities = Val.vlist [] := by
  unfold runStages
  constructor <;> simp [h, stage_ai_error_fields]

/-! ## Claim theorems -/

/-- C1: for every run of the orchestrator on an existing report in which
no job-level exception escapes (the model of the try-body), the final
record status is completed unconditionally and the accumulated outputs
map holds a value under every registered output key - website_data,
seo_data, social_data, reputation_data, competitor_data, trust_score and
growth_opportunities - regardless of how many stages failed. -/
theorem C1_completed_total_coverage (st : Store) (rid : String)
    (r : Report) (oc : StageOutcomes) (now : Nat) (h : st rid = some r) :
    (generate_marketing_report st rid oc now).2
      = some (runStages r oc now) ∧
    ((generate_marketing_report st rid oc now).1) rid
      = some (runStages r oc now).1 ∧
    (runStages r oc now).1.status = Status.completed ∧
    ∀ k ∈ registry_output_keys,
      (ctxGet (runStages r oc now).2 k).isSome := by
  unfold generate_marketing_report
  rw [h]
  exact ⟨rfl, by simp [persist], runStages_status r oc now,
    runStages_cd_covers r oc now⟩

/-- Witness for C1: a concrete store, pending record, and all-success
outcomes. -/
theorem C1_completed_total_coverage_witness :
    sample_store "r1" = some sample_report ∧
    ((generate_marketing_report sample_store "r1" oc_all_ok 100).2
        = some (runStages sample_report oc_all_ok 100) ∧
      ((generate_marketing_report sample_store "r1" oc_all_ok 100).1) "r1"
        = some (runStages sample_report oc_all_ok 100).1 ∧
      (runStages sample_report oc_all_ok 100).1.status
        = Status.completed ∧
      ∀ k ∈ registry_output_keys,
        (ctxGet (runStages sample_report oc_all_ok 100).2 k).isSome) :=
  ⟨rfl, C1_completed_total_coverage sample_store "r1" sample_report
    oc_all_ok 100 rfl⟩

/-- C2 counterexample: on a concrete run in which the social stage raises,
the fallback payload is substituted into the outputs, but the final
record has an empty error_messages list - no entry prefixed with the
stage name is appended, refuting the claim that the errors list gains
exactly one new entry. -/
theorem C2_errors_counterexample :
    oc_social_fail.social = Except.error "rate limited" ∧
    ctxGet (runStages sample_report oc_social_fail 100).2 "social_data"
      = some (social_fallback "example.com" "rate limited") ∧
    (runStages sample_report oc_social_fail 100).1.error_messages = [] :=
  ⟨rfl, runStages_social_cd_of_fail sample_report oc_social_fail 100
    "rate limited" rfl,
   runStages_error_messages sample_report oc_social_fail 100⟩

/-- C2 (amended): if the social stage fails, the outputs entry under
social_data equals the declared fallback (domain, error, empty platforms)
built from the context at failure time, and the failure is recorded in
the stage progress entry (status failed, message prefixed with the stage
failure label); the record error_messages list gains no entry - it ends
empty because stage failures are not appended to it. -/
theorem C2_fallback_substitution (r : Report) (oc : StageOutcomes)
    (now : Nat) (e : String) (h : oc.social = .error e) :
    ctxGet (runStages r oc now).2 "social_data"
      = some (social_fallback r.website_domain e) ∧
    (⟨"social_analysis", "failed", 0,
        "Social media analysis failed: " ++ e, some now⟩ : StepEntry)
      ∈ (runStages r oc now).1.processing_steps ∧
    (runStages r oc now).1.error_messages = [] :=
  ⟨runStages_social_cd_of_fail r oc now e h,
   runStages_social_step_of_fail r oc now e h,
   runStages_error_messages r oc now⟩

/-- Witness for C2 (amended) at a concrete failing social outcome. -/
theorem C2_fallback_substitution_witness :
    ctxGet (runStages sample_report oc_social_fail 100).2 "social_data"
      = some (social_fallback sample_report.website_domain
          "rate limited") ∧
    (⟨"social_analysis", "failed", 0,
        "Social media analysis failed: " ++ "rate limited",
        some 100⟩ : StepEntry)
      ∈ (runStages sample_report oc_social_fail 100).1.processing_steps ∧
    (runStages sample_report oc_social_fail 100).1.error_messages = [] :=
  C2_fallback_substitution sample_report oc_social_fail 100
    "rate limited" rfl

/-- C3 counterexample: a record already in processing (started at time 5,
with a previously mutated steps list) is re-run at time 100; the run
resets processing_started_at to 100 and reinstalls the fresh steps list,
refuting the claim that neither is reset on a re-run. -/
theorem C3_reset_counterexample :
    sample_processing_report.status = Status.processing ∧
    sample_processing_report.processing_started_at = some 5 ∧
    (runStages sample_processing_report oc_all_ok
        100).1.processing_started_at = some 100 ∧
    sample_processing_report.processing_steps ≠ initialSteps ∧
    (initReport sample_processing_report 100).processing_steps
      = initialSteps :=
  ⟨rfl, rfl,
   runStages_processing_started_at sample_processing_report oc_all_ok 100,
   by decide, initReport_steps sample_processing_report 100⟩

/-- C3 (amended): entering processing is not idempotent - on every
invocation, including a re-run of a record already in processing, the
orchestrator unconditionally sets status to processing, resets
processing_started_at to the current time, clears error_messages, and
reinstalls the fresh stage-progress list; the whole run leaves
processing_started_at at the time of this invocation. -/
theorem C3_reset_on_rerun (r : Report) (oc : StageOutcomes) (now : Nat) :
    (initReport r now).status = Status.processing ∧
    (initReport r now).processing_started_at = some now ∧
    (initReport r now).error_messages = [] ∧
    (initReport r now).processing_steps = initialSteps ∧
    (runStages r oc now).1.processing_started_at = some now :=
  ⟨initReport_status r now, initReport_psa r now, initReport_err r now,
   initReport_steps r now, runStages_processing_started_at r oc now⟩

/-- C4: the job runner retries with exponential backoff - the countdown
before extra attempt k is base times two to the k minus one with base 60
(60, 120, 240), the retry budget is 3 extra attempts, after which the
runner gives up with the record left failed (the job-level handler marks
it failed and appends the exception) and schedules nothing further. -/
theorem C4_retry_backoff :
    job_execute (fun _ => true) = ([60, 120, 240], true) ∧
    (∀ k, 1 ≤ k → k ≤ max_retries →
      retry_countdown (k - 1) = 60 * 2 ^ (k - 1)) ∧
    (∀ r exc now, (fail_record r exc now).status = Status.failed ∧
      (fail_record r exc now).error_messages
        = r.error_messages ++ [exc]) := by
  refine ⟨by decide, fun k _ _ => rfl, fun r exc now => ⟨?_, ?_⟩⟩
  · simp [fail_record, save_status]
  · simp [fail_record, save_error_messages]

/-- Witness for C4 at attempt 1 and a concrete record. -/
theorem C4_retry_backoff_witness :
    retry_countdown 0 = 60 * 2 ^ 0 ∧
    (fail_record sample_report "db down" 7).status = Status.failed :=
  ⟨C4_retry_backoff.2.1 1 (by decide) (by decide),
   (C4_retry_backoff.2.2 sample_report "db down" 7).1⟩

/-- C5: running the orchestrator on an id with no record fails with the
not-found outcome, leaves the store untouched, and in particular creates
no record under that id. -/
theorem C5_not_found (st : Store) (rid : String) (oc : StageOutcomes)
    (now : Nat) (h : st rid = none) :
    generate_marketing_report st rid oc now = (st, none) ∧
    ((generate_marketing_report st rid oc now).1) rid = none := by
  unfold generate_marketing_report
  rw [h]
  exact ⟨rfl, h⟩

/-- Witness for C5 on the empty store. -/
theorem C5_not_found_witness :
    empty_store "missing" = none ∧
    (generate_marketing_report empty_store "missing" oc_all_ok 100
        = (empty_store, none) ∧
      ((generate_marketing_report empty_store "missing" oc_all_ok
          100).1) "missing" = none) :=
  ⟨rfl, C5_not_found empty_store "missing" oc_all_ok 100 rfl⟩

/-- C6 counterexample: a record carrying one prior error entry is re-run;
the orchestrator clears error_messages at the start of the run, so the
prior entry is removed - the errors list is not append-only across
orchestrator operations. -/
theorem C6_append_only_counterexample :
    sample_failed_report.error_messages = ["boom"] ∧
    (runStages sample_failed_report oc_all_ok 100).1.error_messages
      = [] :=
  ⟨rfl, runStages_error_messages sample_failed_report oc_all_ok 100⟩

/-- C6 (amended): the job-level failure handler and the stuck-job reaper
only append to error_messages (the prior list is always a prefix of the
new one, order preserved), but the orchestrator clears error_messages
when it enters processing, so the list is append-only only within a run,
not across runs. -/
theorem C6_append_only_within_run (r : Report) (exc : String) (now : Nat)
    (oc : StageOutcomes) :
    r.error_messages <+: (fail_record r exc now).error_messages ∧
    r.error_messages <+: (monitorStep r now).error_messages ∧
    (initReport r now).error_messages = [] ∧
    (runStages r oc now).1.error_messages = [] := by
  refine ⟨?_, ?_, initReport_err r now,
    runStages_error_messages r oc now⟩
  · rw [show (fail_record r exc now).error_messages
        = r.error_messages ++ [exc] from by
      simp [fail_record, save_error_messages]]
    exact List.prefix_append _ _
  · by_cases h : isStuck r now = true
    · rw [(monitorStep_of_stuck r now h).2.1]
      exact List.prefix_append _ _
    · rw [monitorStep_of_not_stuck r now (by simpa using h)]

/-- C7 counterexample: saving a record whose status just became failed
does not set completed_at (the save method only stamps it for status
completed), refuting the claim that completed_at is set at the first
save in which status became completed or failed. -/
theorem C7_failed_save_counterexample :
    sample_failed_report.status = Status.failed ∧
    sample_failed_report.completed_at = none ∧
    (Report.save sample_failed_report 10).completed_at = none := by
  refine ⟨rfl, rfl, ?_⟩
  rw [save_completed_at]
  simp [sample_failed_report, sample_report]

/-- C7 (amended): completed_at is stamped by save exactly at the first
save whose status is completed (never for failed) and an already-present
completed_at is never overwritten by save; while both completed_at and
processing_started_at are present, every save recomputes processing_time
as their difference, so saving twice with the same two timestamps yields
the same processing_time. -/
theorem C7_completed_at_and_ptime (r : Report) (now now2 : Nat)
    (c p : Nat) :
    ((Report.save r now).completed_at =
      if r.status = Status.completed ∧ r.completed_at = none then some now
      else r.completed_at) ∧
    (r.completed_at = some c →
      (Report.save r now).completed_at = some c) ∧
    (r.completed_at = some c → r.processing_started_at = some p →
      (Report.save r now).processing_time_seconds
        = some ((c : Int) - (p : Int)) ∧
      (Report.save (Report.save r now) now2).processing_time_seconds
        = (Report.save r now).processing_time_seconds) := by
  refine ⟨save_completed_at r now, save_completed_at_of_set r now c, ?_⟩
  intro h1 h2
  have hfirst := save_ptime r now c p h1 h2
  refine ⟨hfirst, ?_⟩
  have h1b : (Report.save r now).completed_at = some c :=
    save_completed_at_of_set r now c h1
  have h2b : (Report.save r now).processing_started_at = some p := by
    rw [save_processing_started_at]; exact h2
  rw [save_ptime _ now2 c p h1b h2b, hfirst]

/-- Witness for C7 (amended) on a record with both timestamps set. -/
theorem C7_completed_at_and_ptime_witness :
    (Report.save sample_timed_report 100).processing_time_seconds
      = some ((90 : Int) - (40 : Int)) ∧
    (Report.save sample_timed_report 100).completed_at = some 90 :=
  ⟨((C7_completed_at_and_ptime sample_timed_report 100 200 90 40).2.2
      rfl rfl).1,
   (C7_completed_at_and_ptime sample_timed_report 100 200 90 40).2.1 rfl⟩

/-- C8: one invocation of the stuck-job reaper transitions a record that
is in processing with a start time older than the 30-minute threshold to
failed and appends the timeout error; a second invocation is a no-op on
that record because it only selects records still in processing; records
not meeting both conditions are left unchanged; and the sweep over the whole
store is idempotent. -/
theorem C8_reaper_safety (r : Report) (now now2 : Nat)
    (s : List (String × Report)) :
    (isStuck r now = true →
      (monitorStep r now).status = Status.failed ∧
      (monitorStep r now).error_messages
        = r.error_messages ++ [timeout_message] ∧
      monitorStep (monitorStep r now) now2 = monitorStep r now) ∧
    (isStuck r now = false → monitorStep r now = r) ∧
    monitor_report_processing (monitor_report_processing s now) now
      = monitor_report_processing s now := by
  refine ⟨fun h => ⟨(monitorStep_of_stuck r now h).1,
      (monitorStep_of_stuck r now h).2.1,
      monitorStep_idem r now now2 h⟩,
    monitorStep_of_not_stuck r now, ?_⟩
  unfold monitor_report_processing
  rw [List.map_map]
  refine List.map_congr_left (fun kv _ => ?_)
  simp only [Function.comp]
  rw [monitorStep_same_now_idem]

/-- Witness for C8: a stuck record is failed, a pending record is left
unchanged. -/
theorem C8_reaper_safety_witness :
    (monitorStep sample_stuck_report 10000).status = Status.failed ∧
    monitorStep sample_report 10000 = sample_report :=
  ⟨((C8_reaper_safety sample_stuck_report 10000 0 []).1 rfl).1,
   (C8_reaper_safety sample_report 10000 0 []).2.1 rfl⟩

/-- C9: the overall progress value is never negative and never exceeds
100, and it is 0 for an empty steps list. -/
theorem C9_progress_bounds (r : Report) :
    0 ≤ progress_percentage r ∧ progress_percentage r ≤ 100 ∧
    (r.processing_steps = [] → progress_percentage r = 0) := by
  by_cases hE : r.processing_steps.isEmpty
  · simp [progress_percentage, hE]
  · have hlen : r.processing_steps.length ≠ 0 := by
      intro h0
      rw [List.length_eq_zero] at h0
      rw [h0] at hE
      simp at hE
    have hct : r.processing_steps.countP (fun s => s.status = "completed")
        ≤ r.processing_steps.length := List.countP_le_length _
    have htpos : (0 : ℚ) < (r.processing_steps.length : ℚ) := by
      exact_mod_cast Nat.pos_of_ne_zero hlen
    refine ⟨?_, ?_, ?_⟩
    · simp only [progress_percentage, hE, if_false]
      rw [if_neg hlen]
      positivity
    · simp only [progress_percentage, hE, if_false]
      rw [if_neg hlen]
      calc ((r.processing_steps.countP
              (fun s => s.status = "completed") : ℚ)
            / (r.processing_steps.length : ℚ)) * 100
          ≤ 1 * 100 := by
            refine mul_le_mul_of_nonneg_right ?_ (by norm_num)
            exact div_le_one_of_le₀ (by exact_mod_cast hct) htpos.le
        _ = 100 := one_mul _
    · intro h0
      rw [h0] at hE
      simp at hE

/-- Witness for C9 at the empty steps list. -/
theorem C9_progress_bounds_witness :
    0 ≤ progress_percentage sample_report ∧
    progress_percentage sample_report ≤ 100 ∧
    progress_percentage sample_report = 0 :=
  ⟨(C9_progress_bounds sample_report).1,
   (C9_progress_bounds sample_report).2.1,
   (C9_progress_bounds sample_report).2.2 rfl⟩

/-- C10: when a data-collection stage fails, its fallback payload goes
only into the in-memory context - the persisted record field keeps its
prior value (seo_data, social_data, reputation_data, competitor_data) -
with the single exception of the AI stage, whose fallback trust score
and empty growth-opportunities list are also written to the record. -/
theorem C10_fallback_not_persisted (r : Report) (oc : StageOutcomes)
    (now : Nat) :
    (∀ e, oc.seo = .error e →
      (runStages r oc now).1.seo_data = r.seo_data) ∧
    (∀ e, oc.social = .error e →
      (runStages r oc now).1.social_data = r.social_data) ∧
    (∀ e, oc.reputation = .error e →
      (runStages r oc now).1.reputation_data = r.reputation_data) ∧
    (∀ e, oc.competitor = .error e →
      (runStages r oc now).1.competitor_data = r.competitor_data) ∧
    (∀ e, oc.ai = .error e →
      (runStages r oc now).1.trust_score = ai_trust_fallback e ∧
      (runStages r oc now).1.growth_opportunities = Val.vlist []) :=
  ⟨fun e h => runStages_seo_of_fail r oc now e h,
   fun e h => runStages_social_of_fail r oc now e h,
   fun e h => runStages_reputation_of_fail r oc now e h,
   fun e h => runStages_competitor_of_fail r oc now e h,
   fun e h => runStages_ai_of_fail r oc now e h⟩

/-- Witness for C10 with every data and AI stage failing. -/
theorem C10_fallback_not_persisted_witness :
    (runStages sample_report oc_many_fail 100).1.seo_data
      = sample_report.seo_data ∧
    (runStages sample_report oc_many_fail 100).1.trust_score
      = ai_trust_fallback "ai down" ∧
    (runStages sample_report oc_many_fail 100).1.growth_opportunities
      = Val.vlist [] :=
  ⟨(C10_fallback_not_persisted sample_report oc_many_fail 100).1
      "seo down" rfl,
   ((C10_fallback_not_persisted sample_report oc_many_fail
      100).2.2.2.2 "ai down" rfl).1,
   ((C10_fallback_not_persisted sample_report oc_many_fail
      100).2.2.2.2 "ai down" rfl).2⟩
